import Mathlib

/-!
Shallow embedding of the E-Commerce Sales & Customer Behavior Analysis
repository (data-processing pipelines, customer/sales/real-data analytics
engines and the dashboard's global filter block), together with theorems
settling the frozen specification claims.

Conventions:
* pandas timestamps are modelled at day granularity as `ℤ` day numbers
  (days since 1970-01-01), the calendar conversion being the standard
  proleptic-Gregorian civil algorithm;
* monetary and float-valued columns are modelled as `ℚ`, with `.round(2)`
  modelled as round-half-to-even at two decimals (numpy/pandas semantics);
* dataframes are lists of row records; `groupby` keys are enumerated in
  ascending sorted order, as pandas does by default;
* external numeric libraries (statsmodels model fitting) are modelled as
  oracle parameters returning `Option` results (`none` = the call raised).
-/

/-! ### Rounding (pandas `.round(2)`, half-to-even) -/

/-- Round a rational to the nearest integer, ties to even
(the rounding used by numpy/pandas `.round`). -/
def roundHalfEven (x : ℚ) : ℤ :=
  let f := ⌊x⌋
  if x - f < 1/2 then f
  else if 1/2 < x - f then f + 1
  else if f % 2 = 0 then f else f + 1

/-- `pandas.Series.round(2)`: round to two decimal places, half to even. -/
def round2 (x : ℚ) : ℚ := (roundHalfEven (x * 100) : ℚ) / 100

theorem abs_roundHalfEven_sub_le (x : ℚ) : |(roundHalfEven x : ℚ) - x| ≤ 1/2 := by
  have h1 : (⌊x⌋ : ℚ) ≤ x := Int.floor_le x
  have h2 : x < ⌊x⌋ + 1 := Int.lt_floor_add_one x
  unfold roundHalfEven
  simp only []
  split
  · rw [abs_le]; constructor <;> push_cast <;> linarith
  · split
    · rw [abs_le]; constructor <;> push_cast <;> linarith
    · split
      · rw [abs_le]; constructor <;> push_cast <;> linarith
      · rw [abs_le]; constructor <;> push_cast <;> linarith

theorem abs_round2_sub_le (x : ℚ) : |round2 x - x| ≤ 1/200 := by
  have h := abs_roundHalfEven_sub_le (x * 100)
  have hx : round2 x - x = ((roundHalfEven (x * 100) : ℚ) - x * 100) / 100 := by
    unfold round2; ring
  rw [hx, abs_div]
  rw [show |(100 : ℚ)| = 100 by norm_num]
  linarith [h]

/-! ### Calendar: civil (proleptic Gregorian) ↔ day numbers -/

/-- A calendar date (year, month 1–12, day-of-month). -/
structure Date where
  y : ℤ
  m : ℕ
  d : ℕ
deriving DecidableEq, Repr

/-- Day number → civil date (standard civil-from-days algorithm;
`ℤ` division is Euclidean, which agrees with floor division for the
positive divisors used here). -/
def fromDays (t : ℤ) : Date :=
  let z := t + 719468
  let era := z / 146097
  let doe := z - era * 146097
  let yoe := (doe - doe / 1460 + doe / 36524 - doe / 146096) / 365
  let y := yoe + era * 400
  let doy := doe - (365 * yoe + yoe / 4 - yoe / 100)
  let mp := (5 * doy + 2) / 153
  let d := doy - (153 * mp + 2) / 5 + 1
  let m := mp + (if mp < 10 then 3 else -9)
  ⟨y + (if m ≤ 2 then 1 else 0), m.toNat, d.toNat⟩

/-- Civil date → day number (standard days-from-civil algorithm). -/
def daysFromCivil (dt : Date) : ℤ :=
  let y : ℤ := dt.y - (if dt.m ≤ 2 then 1 else 0)
  let m : ℤ := dt.m
  let era := y / 400
  let yoe := y - era * 400
  let doy := (153 * (m + (if 2 < m then -3 else 9)) + 2) / 5 + dt.d - 1
  let doe := yoe * 365 + yoe / 4 - yoe / 100 + doy
  era * 146097 + doe - 719468

/-- Gregorian leap-year test. -/
def isLeap (y : ℤ) : Bool := y % 4 == 0 && (y % 100 != 0 || y % 400 == 0)

/-- Number of days in a month. -/
def daysInMonth (y : ℤ) (m : ℕ) : ℕ :=
  if m = 2 then (if isLeap y then 29 else 28)
  else if m = 4 ∨ m = 6 ∨ m = 9 ∨ m = 11 then 30
  else 31

/-- A month period, encoded as `12 * year + (month − 1)`
(the encoding pandas uses for monthly `Period`s). -/
def monthIdx (dt : Date) : ℤ := 12 * dt.y + dt.m - 1

/-- Month period of a day number. -/
def monthOfDay (t : ℤ) : ℤ := monthIdx (fromDays t)

/-- First day of a month period. -/
def monthStart (i : ℤ) : Date := ⟨i / 12, (i % 12).toNat + 1, 1⟩

/-- Last day of a month period (the label `resample('M')` attaches). -/
def monthEnd (i : ℤ) : Date :=
  ⟨i / 12, (i % 12).toNat + 1, daysInMonth (i / 12) ((i % 12).toNat + 1)⟩

theorem daysInMonth_ne_one (y : ℤ) (m : ℕ) : daysInMonth y m ≠ 1 := by
  unfold daysInMonth
  split
  · split <;> omega
  · split <;> omega

/-- Weekday name of a day number (day 0 = 1970-01-01 = Thursday). -/
def dayName (t : ℤ) : String :=
  match ((t + 4) % 7).toNat with
  | 0 => "Sunday"
  | 1 => "Monday"
  | 2 => "Tuesday"
  | 3 => "Wednesday"
  | 4 => "Thursday"
  | 5 => "Friday"
  | _ => "Saturday"

/-- Calendar quarter of a month (1–12 → 1–4). -/
def quarterOf (m : ℕ) : ℕ := (m - 1) / 3 + 1

/-! ### Generic list helpers -/

/-- `drop_duplicates(subset=[key])`: keep the first row for each key. -/
def dedupByKey {α κ : Type} [DecidableEq κ] (key : α → κ) : List α → List α
  | [] => []
  | x :: xs => x :: dedupByKey key (xs.filter (fun y => key y ≠ key x))
termination_by l => l.length
decreasing_by
  exact Nat.lt_succ_of_le (List.length_filter_le _ _)

/-- Left-join lookup: first row whose key matches, if any. -/
def lookupBy {α κ : Type} [DecidableEq κ] (key : α → κ) (xs : List α) (k : κ) :
    Option α :=
  xs.find? (fun x => key x = k)

/-! ### Synthetic-schema pipeline (`src/data_processing.py`) -/

structure RawCustomer where
  customer_id : ℕ
  name : String
  email : String
  country : String
  city : String
  registration_date : ℤ
  age : ℕ
  gender : String
deriving DecidableEq, Repr

structure RawProduct where
  product_id : ℕ
  product_name : String
  category : String
  price : ℚ
  cost : ℚ
deriving DecidableEq, Repr

structure RawTransaction where
  transaction_id : ℕ
  customer_id : ℕ
  product_id : ℕ
  transaction_date : ℤ
  quantity : ℕ
  unit_price : ℚ
  discount : ℚ
  total_amount : ℚ
  payment_method : String
  shipping_method : String
  status : String
deriving DecidableEq, Repr

/-- A product row after the pipeline adds `profit_margin_pct`. -/
structure ProcProduct extends RawProduct where
  profit_margin_pct : ℚ
deriving DecidableEq, Repr

/-- A master-table row of the synthetic pipeline: the completed transaction,
its derived time features, the left-joined product/customer (absent keys give
nulls) and the derived `profit` (null when the product columns are null). -/
structure MasterRow where
  tx : RawTransaction
  year : ℤ
  month : ℕ
  quarter : ℕ
  day_of_week : String
  product : Option ProcProduct
  customer : Option RawCustomer
  profit : Option ℚ
deriving DecidableEq, Repr

/-- `clean_and_merge` from `src/data_processing.py`: dedup customers and
products (keep-first), add `profit_margin_pct`, keep only `Completed`
transactions, add time features, left-join products then customers, and
derive `profit = (price - cost) * quantity - discount`. -/
def clean_and_merge (customers : List RawCustomer) (products : List RawProduct)
    (transactions : List RawTransaction) : List MasterRow :=
  let customersD := dedupByKey (fun c => c.customer_id) customers
  let productsD : List ProcProduct :=
    (dedupByKey (fun p => p.product_id) products).map (fun p =>
      { toRawProduct := p
        profit_margin_pct := round2 ((p.price - p.cost) / p.price * 100) })
  let txF := transactions.filter (fun t => t.status = "Completed")
  txF.map (fun t =>
    let dt := fromDays t.transaction_date
    let pr := lookupBy (fun p => p.toRawProduct.product_id) productsD t.product_id
    let cu := lookupBy (fun c => c.customer_id) customersD t.customer_id
    { tx := t
      year := dt.y
      month := dt.m
      quarter := quarterOf dt.m
      day_of_week := dayName t.transaction_date
      product := pr
      customer := cu
      profit := pr.map (fun p => (p.price - p.cost) * t.quantity - t.discount) })

/-! ### Real-schema pipeline (`src/real_data_processing.py`) -/

/-- A raw record of DATASET.csv (source column names). -/
structure RealRaw where
  Order_ID : String
  Customer_ID : String
  Date : ℤ
  Age : ℕ
  Gender : String
  City : String
  Product_Category : String
  Unit_Price : ℚ
  Quantity : ℕ
  Discount_Amount : ℚ
  Total_Amount : ℚ
  Payment_Method : String
  Device_Type : String
  Session_Duration_Minutes : ℚ
  Pages_Viewed : ℕ
  Is_Returning_Customer : Bool
  Delivery_Time_Days : ℤ
  Customer_Rating : ℚ
deriving DecidableEq, Repr

/-- A master-table row of the real-schema pipeline. -/
structure RealMasterRow where
  transaction_id : String
  customer_id : String
  transaction_date : ℤ
  age : ℕ
  gender : String
  city : String
  category : String
  unit_price : ℚ
  quantity : ℕ
  discount : ℚ
  total_amount : ℚ
  payment_method : String
  device_type : String
  session_duration : ℚ
  pages_viewed : ℕ
  is_returning : Bool
  delivery_days : ℤ
  rating : ℚ
  product_name : String
  product_id : String
  cost : ℚ
  price : ℚ
  profit : ℚ
  year : ℤ
  month : ℕ
  quarter : ℕ
  day_of_week : String
  country : String
  registration_date : ℤ
  name : String
  email : String
  shipping_method : String
  status : String
deriving DecidableEq, Repr

/-- Zero-padded 4-digit product code suffix. -/
def pad4 (n : ℕ) : String :=
  if n < 10 then "000" ++ toString n
  else if n < 100 then "00" ++ toString n
  else if n < 1000 then "0" ++ toString n
  else toString n

/-- `s[-4:]` on a Python string. -/
def lastFour (s : String) : String := ⟨s.data.drop (s.data.length - 4)⟩

/-- `load_and_process_real_data` from `src/real_data_processing.py`.
The column renames are performed by field naming; `regOffset` models the
seeded numpy draw of a 30–180 day registration backdate per customer. -/
def load_and_process_real_data (regOffset : String → ℤ) (rows : List RealRaw) :
    List RealMasterRow :=
  let cats := dedupByKey id (rows.map (fun r => r.Product_Category))
  let catCode (c : String) : String := "PROD" ++ pad4 (cats.indexOf c + 1)
  let firstPurchase (cid : String) : ℤ :=
    (((rows.filter (fun r => r.Customer_ID = cid)).map (fun r => r.Date)).min?).getD 0
  rows.map (fun r =>
    let cost := round2 (r.Unit_Price * (6/10))
    let dt := fromDays r.Date
    { transaction_id := r.Order_ID
      customer_id := r.Customer_ID
      transaction_date := r.Date
      age := r.Age
      gender := r.Gender
      city := r.City
      category := r.Product_Category
      unit_price := r.Unit_Price
      quantity := r.Quantity
      discount := r.Discount_Amount
      total_amount := r.Total_Amount
      payment_method := r.Payment_Method
      device_type := r.Device_Type
      session_duration := r.Session_Duration_Minutes
      pages_viewed := r.Pages_Viewed
      is_returning := r.Is_Returning_Customer
      delivery_days := r.Delivery_Time_Days
      rating := r.Customer_Rating
      product_name := r.Product_Category ++ "_" ++ lastFour r.Order_ID
      product_id := catCode r.Product_Category
      cost := cost
      price := r.Unit_Price
      profit := round2 ((r.Unit_Price - cost) * r.Quantity - r.Discount_Amount)
      year := dt.y
      month := dt.m
      quarter := quarterOf dt.m
      day_of_week := dayName r.Date
      country := "Turkey"
      registration_date := firstPurchase r.Customer_ID - regOffset r.Customer_ID
      name := "Customer_" ++ r.Customer_ID
      email := r.Customer_ID.toLower ++ "@example.com"
      shipping_method :=
        if r.Delivery_Time_Days ≤ (2 : ℤ) then "Express"
        else if r.Delivery_Time_Days ≤ (5 : ℤ) then "Standard"
        else "Economy"
      status := "Completed" })

/-! ### Claim C1: profit identity in both pipelines -/

/-- **C1.** For every row of the master table produced by either processing
pipeline, the derived `profit` column equals
`(price − cost) * quantity − discount` within 2-decimal rounding tolerance:
exactly for the synthetic pipeline (no rounding is applied there), and within
half of 10⁻² for the real pipeline (whose `profit` is `.round(2)` of that very
expression evaluated on the master table's own `price`/`cost` columns). -/
theorem C1_profit_identity :
    (∀ (cs : List RawCustomer) (ps : List RawProduct) (ts : List RawTransaction),
      ∀ row ∈ clean_and_merge cs ps ts, ∀ p, row.product = some p →
        row.profit = some ((p.price - p.cost) * row.tx.quantity - row.tx.discount)) ∧
    (∀ (regOffset : String → ℤ) (rows : List RealRaw),
      ∀ row ∈ load_and_process_real_data regOffset rows,
        |row.profit - ((row.price - row.cost) * row.quantity - row.discount)| ≤
          1 / 200) := by
  constructor
  · intro cs ps ts row hrow p hp
    simp only [clean_and_merge, List.mem_map] at hrow
    obtain ⟨t, -, rfl⟩ := hrow
    simp only [] at hp ⊢
    rw [hp]
    simp
  · intro regOffset rows row hrow
    simp only [load_and_process_real_data, List.mem_map] at hrow
    obtain ⟨r, -, rfl⟩ := hrow
    simp only []
    exact abs_round2_sub_le _

/-- Closed witness for C1 on concrete one-row inputs for both pipelines. -/
theorem C1_profit_identity_witness :
    (let p : RawProduct :=
      { product_id := 1, product_name := "W", category := "C", price := 10, cost := 4 }
     let t : RawTransaction :=
      { transaction_id := 1, customer_id := 1, product_id := 1,
        transaction_date := 19358, quantity := 2, unit_price := 10,
        discount := 1, total_amount := 19, payment_method := "PayPal",
        shipping_method := "Standard", status := "Completed" }
     ∀ row ∈ clean_and_merge [] [p] [t], ∀ q, row.product = some q →
        row.profit = some ((q.price - q.cost) * row.tx.quantity - row.tx.discount)) ∧
    (let r : RealRaw :=
      { Order_ID := "ORD1", Customer_ID := "C1", Date := 19358, Age := 30,
        Gender := "Female", City := "Istanbul", Product_Category := "Books",
        Unit_Price := 10, Quantity := 2, Discount_Amount := 1,
        Total_Amount := 19, Payment_Method := "PayPal", Device_Type := "Mobile",
        Session_Duration_Minutes := 10, Pages_Viewed := 3,
        Is_Returning_Customer := false, Delivery_Time_Days := 2,
        Customer_Rating := 5 }
     ∀ row ∈ load_and_process_real_data (fun _ => 30) [r],
        |row.profit - ((row.price - row.cost) * row.quantity - row.discount)| ≤
          1 / 200) :=
  ⟨C1_profit_identity.1 _ _ _, C1_profit_identity.2 _ _⟩

/-! ### Dashboard global filter block (`dashboard.py`, sidebar filters) -/

/-- The inclusive date-range predicate; the date filter is applied only when
both ends of the range are selected. -/
def inDateRange (dateRange : Option (ℤ × ℤ)) (t : ℤ) : Bool :=
  match dateRange with
  | some (s, e) => s ≤ t ∧ t ≤ e
  | none => true

/-- The sidebar filter block of the dashboard: the working table starts as a
copy of the master table; the inclusive date range is applied when both ends
are selected, then each selector filters only when it is not `"All"`,
each applied to the running result. -/
def applyGlobalFilters (df : List RealMasterRow)
    (dateRange : Option (ℤ × ℤ))
    (selCategory selCity selGender selDevice : String) : List RealMasterRow :=
  let f1 := match dateRange with
    | some (s, e) =>
        df.filter (fun r => s ≤ r.transaction_date ∧ r.transaction_date ≤ e)
    | none => df
  let f2 := if selCategory ≠ "All" then
      f1.filter (fun r => r.category = selCategory) else f1
  let f3 := if selCity ≠ "All" then
      f2.filter (fun r => r.city = selCity) else f2
  let f4 := if selGender ≠ "All" then
      f3.filter (fun r => r.gender = selGender) else f3
  if selDevice ≠ "All" then
    f4.filter (fun r => r.device_type = selDevice) else f4

/-- **C8.** The dashboard's global filtering is a pure conjunction: the
working table is exactly the rows of the master table satisfying every
active filter predicate simultaneously (with `"All"` meaning no
restriction), and its row count never exceeds the unfiltered table's. -/
theorem C8_filter_conjunction (df : List RealMasterRow)
    (dateRange : Option (ℤ × ℤ))
    (selCategory selCity selGender selDevice : String) :
    applyGlobalFilters df dateRange selCategory selCity selGender selDevice =
      df.filter (fun r =>
        inDateRange dateRange r.transaction_date &&
        (selCategory = "All" ∨ r.category = selCategory) &&
        (selCity = "All" ∨ r.city = selCity) &&
        (selGender = "All" ∨ r.gender = selGender) &&
        (selDevice = "All" ∨ r.device_type = selDevice)) ∧
    (applyGlobalFilters df dateRange selCategory selCity selGender
        selDevice).length ≤ df.length := by
  have heq : applyGlobalFilters df dateRange selCategory selCity selGender
      selDevice =
      df.filter (fun r =>
        inDateRange dateRange r.transaction_date &&
        (selCategory = "All" ∨ r.category = selCategory) &&
        (selCity = "All" ∨ r.city = selCity) &&
        (selGender = "All" ∨ r.gender = selGender) &&
        (selDevice = "All" ∨ r.device_type = selDevice)) := by
    unfold applyGlobalFilters inDateRange
    cases dateRange with
    | none =>
        simp only []
        split_ifs with h1 h2 h3 h4 <;>
          simp_all [List.filter_filter] <;>
          (apply List.filter_congr; intro r _;
           by_cases hc : r.category = selCategory <;>
            by_cases hci : r.city = selCity <;>
            by_cases hg : r.gender = selGender <;>
            by_cases hd : r.device_type = selDevice <;> simp_all)
    | some se =>
        obtain ⟨s, e⟩ := se
        simp only []
        split_ifs with h1 h2 h3 h4 <;>
          simp_all [List.filter_filter] <;>
          (apply List.filter_congr; intro r _;
           by_cases hc : r.category = selCategory <;>
            by_cases hci : r.city = selCity <;>
            by_cases hg : r.gender = selGender <;>
            by_cases hd : r.device_type = selDevice <;> simp_all)
  exact ⟨heq, by rw [heq]; exact List.length_filter_le _ _⟩

/-! ### Customer analytics (`src/customer_analysis.py`) -/

/-- A master-table row as consumed by the analytics engines
(the columns they read). -/
structure TxRow where
  transaction_id : ℕ
  customer_id : ℕ
  product_name : String
  category : String
  transaction_date : ℤ
  quantity : ℕ
  total_amount : ℚ
  profit : ℚ
  discount : ℚ
  payment_method : String
  shipping_method : String
  day_of_week : String
deriving DecidableEq, Repr

/-- The labels of `pd.cut(..., bins=[0, 30, 60, 90, inf])`. -/
inductive ChurnLabel where
  | low | medium | high | churned
deriving DecidableEq, Repr

/-- `pd.cut(days, bins=[0, 30, 60, 90, np.inf], labels=[...])`: right-closed
bins open on the left, so a value `≤ 0` falls outside every bin (NaN). -/
def churnCut (days : ℤ) : Option ChurnLabel :=
  if 0 < days ∧ days ≤ 30 then some .low
  else if 30 < days ∧ days ≤ 60 then some .medium
  else if 60 < days ∧ days ≤ 90 then some .high
  else if 90 < days then some .churned
  else none

structure ChurnRow where
  customer_id : ℕ
  Last_Purchase_Date : ℤ
  Days_Since_Purchase : ℤ
  Is_Churned : Bool
  Churn_Risk : Option ChurnLabel
deriving DecidableEq, Repr

/-- Most recent transaction date of a customer (`groupby(...)["..."].max()`). -/
def lastPurchase (df : List TxRow) (c : ℕ) : ℤ :=
  (((df.filter (fun r => r.customer_id = c)).map
      (fun r => r.transaction_date)).max?).getD 0

/-- `identify_churned_customers` from `src/customer_analysis.py`. -/
def identify_churned_customers (df : List TxRow) (threshold : ℤ) :
    List ChurnRow :=
  let maxDate := ((df.map (fun r => r.transaction_date)).max?).getD 0
  let customers :=
    List.insertionSort (· ≤ ·) (df.map (fun r => r.customer_id)).dedup
  customers.map (fun c =>
    let lp := lastPurchase df c
    let days := maxDate - lp
    { customer_id := c
      Last_Purchase_Date := lp
      Days_Since_Purchase := days
      Is_Churned := threshold < days
      Churn_Risk := churnCut days })

/-- **C4 counterexample.** On a dataset whose only customer bought on the
dataset's maximum date, `Days_Since_Purchase = 0` and the `Churn_Risk`
bucket is missing (`pd.cut` bins are left-open at 0), not "Low" as the
claim states. -/
theorem C4_counterexample :
    (identify_churned_customers
      [{ transaction_id := 1, customer_id := 1, product_name := "A",
         category := "Books", transaction_date := 19358, quantity := 1,
         total_amount := 10, profit := 2, discount := 0,
         payment_method := "PayPal", shipping_method := "Standard",
         day_of_week := "Sunday" }] 90).map
        (fun r => (r.Days_Since_Purchase, r.Churn_Risk)) =
      [(0, none)] ∧
    (none : Option ChurnLabel) ≠ some ChurnLabel.low := by
  constructor
  · decide
  · simp

/-- **C4 (amended).** For every customer row: `Is_Churned` holds exactly when
`Days_Since_Purchase` exceeds the threshold, and `Churn_Risk` follows the
left-open buckets Low (0,30], Medium (30,60], High (60,90], Churned (90,∞);
`Days_Since_Purchase = 0` (the most recent customer) gets no bucket, while
30 is Low and 91 under threshold 90 is churned with bucket Churned. -/
theorem C4_churn_amended (df : List TxRow) (threshold : ℤ) :
    ∀ row ∈ identify_churned_customers df threshold,
      (row.Is_Churned = true ↔ threshold < row.Days_Since_Purchase) ∧
      row.Churn_Risk =
        (if 0 < row.Days_Since_Purchase ∧ row.Days_Since_Purchase ≤ 30 then
          some ChurnLabel.low
         else if 30 < row.Days_Since_Purchase ∧ row.Days_Since_Purchase ≤ 60 then
          some ChurnLabel.medium
         else if 60 < row.Days_Since_Purchase ∧ row.Days_Since_Purchase ≤ 90 then
          some ChurnLabel.high
         else if 90 < row.Days_Since_Purchase then some ChurnLabel.churned
         else none) := by
  intro row hrow
  simp only [identify_churned_customers, List.mem_map] at hrow
  obtain ⟨c, -, rfl⟩ := hrow
  refine ⟨by simp, ?_⟩
  simp [churnCut]

/-- The two-customer churn witness dataset (one purchase 31 days before the
maximum date). -/
def dfChurn : List TxRow :=
  [{ transaction_id := 1, customer_id := 1, product_name := "A",
     category := "Books", transaction_date := 19358, quantity := 1,
     total_amount := 10, profit := 2, discount := 0,
     payment_method := "PayPal", shipping_method := "Standard",
     day_of_week := "Sunday" },
   { transaction_id := 2, customer_id := 2, product_name := "B",
     category := "Books", transaction_date := 19327, quantity := 1,
     total_amount := 12, profit := 3, discount := 0,
     payment_method := "PayPal", shipping_method := "Standard",
     day_of_week := "Friday" }]

/-- Closed witness for C4 (amended) at the second row of the concrete
two-customer churn table (31 days since purchase). -/
theorem C4_churn_amended_witness :
    (((identify_churned_customers dfChurn 90).getD 1
        ⟨0, 0, 0, false, none⟩).Is_Churned = true ↔
      90 < ((identify_churned_customers dfChurn 90).getD 1
        ⟨0, 0, 0, false, none⟩).Days_Since_Purchase) ∧
    ((identify_churned_customers dfChurn 90).getD 1
        ⟨0, 0, 0, false, none⟩).Churn_Risk =
      (if 0 < ((identify_churned_customers dfChurn 90).getD 1
            ⟨0, 0, 0, false, none⟩).Days_Since_Purchase ∧
          ((identify_churned_customers dfChurn 90).getD 1
            ⟨0, 0, 0, false, none⟩).Days_Since_Purchase ≤ 30 then
        some ChurnLabel.low
       else if 30 < ((identify_churned_customers dfChurn 90).getD 1
            ⟨0, 0, 0, false, none⟩).Days_Since_Purchase ∧
          ((identify_churned_customers dfChurn 90).getD 1
            ⟨0, 0, 0, false, none⟩).Days_Since_Purchase ≤ 60 then
        some ChurnLabel.medium
       else if 60 < ((identify_churned_customers dfChurn 90).getD 1
            ⟨0, 0, 0, false, none⟩).Days_Since_Purchase ∧
          ((identify_churned_customers dfChurn 90).getD 1
            ⟨0, 0, 0, false, none⟩).Days_Since_Purchase ≤ 90 then
        some ChurnLabel.high
       else if 90 < ((identify_churned_customers dfChurn 90).getD 1
            ⟨0, 0, 0, false, none⟩).Days_Since_Purchase then
        some ChurnLabel.churned
       else none) :=
  C4_churn_amended dfChurn 90
    ((identify_churned_customers dfChurn 90).getD 1 ⟨0, 0, 0, false, none⟩)
    (by decide)

/-! ### Real-dataset analytics (`src/real_data_analysis.py`) -/

/-- The columns of the real-schema master table read by the
real-dataset analytics engine. -/
structure RealRow where
  transaction_id : String
  customer_id : String
  total_amount : ℚ
  discount : ℚ
  rating : ℚ
  session_duration : ℚ
  pages_viewed : ℚ
  is_returning : Bool
  delivery_days : ℚ
  device_type : String
  city : String
deriving DecidableEq, Repr

/-- Labels of `pd.cut(session_duration, bins=[0, 5, 15, 30, 120])`. -/
inductive SessLabel where
  | quick | medium | long | veryLong
deriving DecidableEq, Repr

/-- Labels of `pd.cut(delivery_days, bins=[0, 3, 7, 14, 30])`. -/
inductive DelLabel where
  | fast | standard | slow | verySlow
deriving DecidableEq, Repr

/-- A dataframe as the engine sees it: the rows plus the two segment columns
the engine may have assigned in place (absent before the first call). -/
structure RealFrame where
  rows : List RealRow
  session_segment : Option (List (Option SessLabel))
  delivery_segment : Option (List (Option DelLabel))
deriving DecidableEq, Repr

/-- `pd.cut(x, bins=[0, 5, 15, 30, 120])`: right-closed left-open bins;
values `≤ 0` or `> 120` fall in no bin (NaN). -/
def sessCut (x : ℚ) : Option SessLabel :=
  if 0 < x ∧ x ≤ 5 then some .quick
  else if 5 < x ∧ x ≤ 15 then some .medium
  else if 15 < x ∧ x ≤ 30 then some .long
  else if 30 < x ∧ x ≤ 120 then some .veryLong
  else none

/-- `pd.cut(x, bins=[0, 3, 7, 14, 30])`. -/
def delCut (x : ℚ) : Option DelLabel :=
  if 0 < x ∧ x ≤ 3 then some .fast
  else if 3 < x ∧ x ≤ 7 then some .standard
  else if 7 < x ∧ x ≤ 14 then some .slow
  else if 14 < x ∧ x ≤ 30 then some .verySlow
  else none

/-- `mean` of a pandas series: NaN (here `none`) on an empty group. -/
def meanQ (xs : List ℚ) : Option ℚ :=
  if xs.length = 0 then none else some (xs.sum / xs.length)

structure SessStat where
  session_segment : SessLabel
  Avg_Order_Value : Option ℚ
  Total_Revenue : ℚ
  Transactions : ℕ
  Avg_Pages_Viewed : Option ℚ
  Avg_Rating : Option ℚ
  Avg_Discount : Option ℚ
deriving DecidableEq, Repr

/-- `session_behavior_analysis`: assigns `df['session_segment']` **on the
caller's dataframe** (pandas column assignment mutates in place), then
aggregates by the assigned segment; the groupby is over a categorical, so all
four labels appear with empty-group aggregates. Returns the post-call state
of the input dataframe together with the aggregate table. -/
def session_behavior_analysis (df : RealFrame) : RealFrame × List SessStat :=
  let df' := { df with
    session_segment := some (df.rows.map (fun r => sessCut r.session_duration)) }
  let stats := [SessLabel.quick, .medium, .long, .veryLong].map (fun l =>
    let g := df.rows.filter (fun r => sessCut r.session_duration = some l)
    { session_segment := l
      Avg_Order_Value := (meanQ (g.map (fun r => r.total_amount))).map round2
      Total_Revenue := round2 (g.map (fun r => r.total_amount)).sum
      Transactions := g.length
      Avg_Pages_Viewed := (meanQ (g.map (fun r => r.pages_viewed))).map round2
      Avg_Rating := (meanQ (g.map (fun r => r.rating))).map round2
      Avg_Discount := (meanQ (g.map (fun r => r.discount))).map round2 })
  (df', stats)

structure DelStat where
  delivery_segment : DelLabel
  Avg_Rating : Option ℚ
  Transaction_Count : ℕ
  Avg_Order_Value : Option ℚ
  Returning_Rate : Option ℚ
deriving DecidableEq, Repr

/-- `delivery_satisfaction_analysis`: assigns `df['delivery_segment']` on the
caller's dataframe, then aggregates by segment. -/
def delivery_satisfaction_analysis (df : RealFrame) : RealFrame × List DelStat :=
  let df' := { df with
    delivery_segment := some (df.rows.map (fun r => delCut r.delivery_days)) }
  let stats := [DelLabel.fast, .standard, .slow, .verySlow].map (fun l =>
    let g := df.rows.filter (fun r => delCut r.delivery_days = some l)
    { delivery_segment := l
      Avg_Rating := (meanQ (g.map (fun r => r.rating))).map round2
      Transaction_Count := g.length
      Avg_Order_Value := (meanQ (g.map (fun r => r.total_amount))).map round2
      Returning_Rate := (meanQ (g.map (fun r =>
        (if r.is_returning then (1 : ℚ) else 0) * 100))).map round2 })
  (df', stats)

structure RetStat where
  label : String
  Avg_Order_Value : ℚ
  Total_Revenue : ℚ
  Transactions : ℕ
  Avg_Rating : ℚ
  Avg_Session_Minutes : ℚ
  Avg_Pages_Viewed : ℚ
  Avg_Discount : ℚ
deriving DecidableEq, Repr

/-- Aggregates of one `is_returning` group. -/
def retStat (df : RealFrame) (b : Bool) (label : String) : RetStat :=
  let g := df.rows.filter (fun r => r.is_returning = b)
  { label := label
    Avg_Order_Value := round2 ((g.map (fun r => r.total_amount)).sum / g.length)
    Total_Revenue := round2 (g.map (fun r => r.total_amount)).sum
    Transactions := g.length
    Avg_Rating := round2 ((g.map (fun r => r.rating)).sum / g.length)
    Avg_Session_Minutes :=
      round2 ((g.map (fun r => r.session_duration)).sum / g.length)
    Avg_Pages_Viewed := round2 ((g.map (fun r => r.pages_viewed)).sum / g.length)
    Avg_Discount := round2 ((g.map (fun r => r.discount)).sum / g.length) }

/-- `returning_customer_analysis`: groups by `is_returning` (group keys in
ascending order, False before True) and then unconditionally assigns the
two-element index `['New Customer', 'Returning Customer']`; pandas raises a
length-mismatch `ValueError` when the number of groups is not two. -/
def returning_customer_analysis (df : RealFrame) : Except String (List RetStat) :=
  let keys := [false, true].filter (fun b => b ∈ df.rows.map (fun r => r.is_returning))
  if keys.length = 2 then
    .ok [retStat df false "New Customer", retStat df true "Returning Customer"]
  else
    .error "Length mismatch: expected axis has fewer elements than new index"

/-- Summing per-label group sizes over a duplicate-free list of labels that
covers the range of `f` counts exactly the rows on which `f` is defined. -/
theorem sum_label_counts {α β : Type} [DecidableEq β] (f : α → Option β)
    (labels : List β) (hnd : labels.Nodup)
    (hall : ∀ x b, f x = some b → b ∈ labels) (rows : List α) :
    (labels.map (fun l => (rows.filter (fun r => f r = some l)).length)).sum =
      (rows.filter (fun r => (f r).isSome)).length := by
  induction rows with
  | nil => simp
  | cons r rs ih =>
      have hsplit : ∀ l : β,
          ((r :: rs).filter (fun x => f x = some l)).length =
            (if f r = some l then 1 else 0) +
              (rs.filter (fun x => f x = some l)).length := by
        intro l
        by_cases h : f r = some l <;> simp [List.filter_cons, h] <;> omega
      have hmap :
          (labels.map (fun l => ((r :: rs).filter (fun x => f x = some l)).length)) =
            labels.map (fun l =>
              (if f r = some l then 1 else 0) +
                (rs.filter (fun x => f x = some l)).length) := by
        exact List.map_congr_left (fun l _ => hsplit l)
      rw [hmap]
      have hadd :
          (labels.map (fun l =>
            (if f r = some l then 1 else 0) +
              (rs.filter (fun x => f x = some l)).length)).sum =
            (labels.map (fun l => if f r = some l then 1 else 0)).sum +
              (labels.map (fun l =>
                (rs.filter (fun x => f x = some l)).length)).sum := by
        induction labels with
        | nil => simp
        | cons a as ihl => simp [ihl]; omega
      rw [hadd, ih]
      have hind : (labels.map (fun l => if f r = some l then 1 else 0)).sum =
          if (f r).isSome then 1 else 0 := by
        cases hfr : f r with
        | none => simp
        | some b =>
            have hb : b ∈ labels := hall r b hfr
            simp only [hfr, Option.isSome_some, if_true, Option.some_inj]
            clear hall hadd hmap hsplit ih hfr
            induction labels with
            | nil => simp at hb
            | cons a as ihl =>
                rcases List.mem_cons.mp hb with rfl | hb2
                · have hbn : b ∉ as := (List.nodup_cons.mp hnd).1
                  have hz : (as.map (fun l => if b = l then 1 else 0)).sum = 0 := by
                    apply List.sum_eq_zero
                    intro x hx
                    obtain ⟨l, hl, rfl⟩ := List.mem_map.mp hx
                    have hne : b ≠ l := fun he => hbn (he ▸ hl)
                    simp [hne]
                  simp [hz]
                · have hnd2 : as.Nodup := (List.nodup_cons.mp hnd).2
                  have hne : b ≠ a := by
                    rintro rfl; exact (List.nodup_cons.mp hnd).1 hb2
                  rw [List.map_cons, List.sum_cons, if_neg hne, ihl hnd2 hb2]
      rw [hind]
      by_cases h : (f r).isSome <;> simp [List.filter_cons, h] <;> omega

/-- **C2 counterexample.** `session_behavior_analysis` does *not* leave the
caller's input unchanged: on a one-row dataframe without a
`session_segment` column, the post-call input has gained that column. -/
theorem C2_counterexample :
    (session_behavior_analysis
      { rows := [{ transaction_id := "ORD1", customer_id := "C1",
                   total_amount := 10, discount := 0, rating := 5,
                   session_duration := 10, pages_viewed := 3,
                   is_returning := false, delivery_days := 2,
                   device_type := "Mobile", city := "Istanbul" }]
        session_segment := none
        delivery_segment := none }).1 ≠
      { rows := [{ transaction_id := "ORD1", customer_id := "C1",
                   total_amount := 10, discount := 0, rating := 5,
                   session_duration := 10, pages_viewed := 3,
                   is_returning := false, delivery_days := 2,
                   device_type := "Mobile", city := "Istanbul" }]
        session_segment := none
        delivery_segment := none } := by
  simp [session_behavior_analysis]

/-- **C2 (amended).** The two segmenting engines mutate the caller's input by
assigning exactly their own segment column (rows and the other segment column
unchanged); every result is a pure function of the rows alone, so re-running
on the mutated input (or on any identical copy) yields identical results. -/
theorem C2_engine_mutation (df : RealFrame) :
    (session_behavior_analysis df).1.rows = df.rows ∧
    (session_behavior_analysis df).1.delivery_segment = df.delivery_segment ∧
    (session_behavior_analysis df).1.session_segment =
      some (df.rows.map (fun r => sessCut r.session_duration)) ∧
    (session_behavior_analysis ((session_behavior_analysis df).1)).2 =
      (session_behavior_analysis df).2 ∧
    (delivery_satisfaction_analysis df).1.rows = df.rows ∧
    (delivery_satisfaction_analysis df).1.session_segment = df.session_segment ∧
    (delivery_satisfaction_analysis df).1.delivery_segment =
      some (df.rows.map (fun r => delCut r.delivery_days)) ∧
    (delivery_satisfaction_analysis ((delivery_satisfaction_analysis df).1)).2 =
      (delivery_satisfaction_analysis df).2 :=
  ⟨rfl, rfl, rfl, rfl, rfl, rfl, rfl, rfl⟩

/-- **C9.** `returning_customer_analysis` errors (pandas index-length
mismatch) whenever `is_returning` is constant over a nonempty input, and when
both groups are present it returns exactly the two rows labelled
"New Customer" then "Returning Customer", in that order. -/
theorem C9_returning_groups (df : RealFrame) :
    (df.rows ≠ [] →
      (∀ r ∈ df.rows, ∀ r' ∈ df.rows, r.is_returning = r'.is_returning) →
      ∃ e, returning_customer_analysis df = .error e) ∧
    ((∃ r ∈ df.rows, r.is_returning = false) →
      (∃ r ∈ df.rows, r.is_returning = true) →
      returning_customer_analysis df =
        .ok [retStat df false "New Customer",
             retStat df true "Returning Customer"]) := by
  constructor
  · intro hne hconst
    unfold returning_customer_analysis
    by_cases hf : ∃ a ∈ df.rows, a.is_returning = false
    · by_cases ht : ∃ a ∈ df.rows, a.is_returning = true
      · obtain ⟨a, ha, hfa⟩ := hf
        obtain ⟨b, hb, htb⟩ := ht
        have hab := hconst a ha b hb
        rw [hfa, htb] at hab
        exact absurd hab (by simp)
      · exact ⟨"Length mismatch: expected axis has fewer elements than new index",
          by simp [List.filter, hf, ht]⟩
    · by_cases ht : ∃ a ∈ df.rows, a.is_returning = true
      · exact ⟨"Length mismatch: expected axis has fewer elements than new index",
          by simp [List.filter, hf, ht]⟩
      · exact ⟨"Length mismatch: expected axis has fewer elements than new index",
          by simp [List.filter, hf, ht]⟩
  · rintro ⟨rf, hrf, hf⟩ ⟨rt, hrt, ht⟩
    unfold returning_customer_analysis
    have hmf : ∃ a ∈ df.rows, a.is_returning = false := ⟨rf, hrf, hf⟩
    have hmt : ∃ a ∈ df.rows, a.is_returning = true := ⟨rt, hrt, ht⟩
    simp [List.filter, hmf, hmt]

/-- Closed witness for C9: a constant one-row input errors; a two-row
mixed input returns the New/Returning rows in order. -/
theorem C9_returning_groups_witness :
    (∃ e, returning_customer_analysis
      { rows := [{ transaction_id := "ORD1", customer_id := "C1",
                   total_amount := 10, discount := 0, rating := 5,
                   session_duration := 10, pages_viewed := 3,
                   is_returning := false, delivery_days := 2,
                   device_type := "Mobile", city := "Istanbul" }]
        session_segment := none
        delivery_segment := none } = .error e) ∧
    (returning_customer_analysis
      { rows := [{ transaction_id := "ORD1", customer_id := "C1",
                   total_amount := 10, discount := 0, rating := 5,
                   session_duration := 10, pages_viewed := 3,
                   is_returning := false, delivery_days := 2,
                   device_type := "Mobile", city := "Istanbul" },
                 { transaction_id := "ORD2", customer_id := "C2",
                   total_amount := 20, discount := 1, rating := 4,
                   session_duration := 20, pages_viewed := 5,
                   is_returning := true, delivery_days := 4,
                   device_type := "Desktop", city := "Ankara" }]
        session_segment := none
        delivery_segment := none } =
      .ok [retStat
            { rows := [{ transaction_id := "ORD1", customer_id := "C1",
                         total_amount := 10, discount := 0, rating := 5,
                         session_duration := 10, pages_viewed := 3,
                         is_returning := false, delivery_days := 2,
                         device_type := "Mobile", city := "Istanbul" },
                       { transaction_id := "ORD2", customer_id := "C2",
                         total_amount := 20, discount := 1, rating := 4,
                         session_duration := 20, pages_viewed := 5,
                         is_returning := true, delivery_days := 4,
                         device_type := "Desktop", city := "Ankara" }]
              session_segment := none
              delivery_segment := none } false "New Customer",
           retStat
            { rows := [{ transaction_id := "ORD1", customer_id := "C1",
                         total_amount := 10, discount := 0, rating := 5,
                         session_duration := 10, pages_viewed := 3,
                         is_returning := false, delivery_days := 2,
                         device_type := "Mobile", city := "Istanbul" },
                       { transaction_id := "ORD2", customer_id := "C2",
                         total_amount := 20, discount := 1, rating := 4,
                         session_duration := 20, pages_viewed := 5,
                         is_returning := true, delivery_days := 4,
                         device_type := "Desktop", city := "Ankara" }]
              session_segment := none
              delivery_segment := none } true "Returning Customer"]) := by
  constructor
  · exact (C9_returning_groups _).1 (by simp) (by intro r hr r' hr'; simp at hr hr'; subst hr; subst hr'; rfl)
  · exact (C9_returning_groups _).2 (by simp) (by simp)

/-- **C10.** The session and delivery segmenters silently drop out-of-range
rows: a row with `session_duration ≤ 0` or `> 120` (resp. `delivery_days ≤ 0`
or `> 30`) gets no segment and is counted in no aggregate — the transaction
counts summed over all segments equal the number of in-range rows, never
exceed the input size, and can be strictly smaller (witnessed by a concrete
out-of-range frame). -/
theorem C10_out_of_range_dropped :
    (∀ (df : RealFrame),
      (∀ r ∈ df.rows,
        (r.session_duration ≤ 0 ∨ 120 < r.session_duration) →
          sessCut r.session_duration = none) ∧
      ((session_behavior_analysis df).2.map (fun s => s.Transactions)).sum =
        (df.rows.filter (fun r => (sessCut r.session_duration).isSome)).length ∧
      (∀ r ∈ df.rows,
        (r.delivery_days ≤ 0 ∨ 30 < r.delivery_days) →
          delCut r.delivery_days = none) ∧
      ((delivery_satisfaction_analysis df).2.map
          (fun s => s.Transaction_Count)).sum =
        (df.rows.filter (fun r => (delCut r.delivery_days).isSome)).length ∧
      ((session_behavior_analysis df).2.map (fun s => s.Transactions)).sum ≤
        df.rows.length ∧
      ((delivery_satisfaction_analysis df).2.map
          (fun s => s.Transaction_Count)).sum ≤ df.rows.length) ∧
    (((session_behavior_analysis
        { rows := [{ transaction_id := "ORD1", customer_id := "C1",
                     total_amount := 10, discount := 0, rating := 5,
                     session_duration := 200, pages_viewed := 3,
                     is_returning := false, delivery_days := 40,
                     device_type := "Mobile", city := "Istanbul" }]
          session_segment := none
          delivery_segment := none }).2.map (fun s => s.Transactions)).sum < 1 ∧
     ((delivery_satisfaction_analysis
        { rows := [{ transaction_id := "ORD1", customer_id := "C1",
                     total_amount := 10, discount := 0, rating := 5,
                     session_duration := 200, pages_viewed := 3,
                     is_returning := false, delivery_days := 40,
                     device_type := "Mobile", city := "Istanbul" }]
          session_segment := none
          delivery_segment := none }).2.map
        (fun s => s.Transaction_Count)).sum < 1) := by
  constructor
  · intro df
    have hsess :
        ((session_behavior_analysis df).2.map (fun s => s.Transactions)).sum =
          (df.rows.filter (fun r => (sessCut r.session_duration).isSome)).length := by
      have hmap : (session_behavior_analysis df).2.map (fun s => s.Transactions) =
          [SessLabel.quick, .medium, .long, .veryLong].map (fun l =>
            (df.rows.filter (fun r => sessCut r.session_duration = some l)).length) :=
        rfl
      rw [hmap]
      exact sum_label_counts (fun r => sessCut r.session_duration)
        [SessLabel.quick, .medium, .long, .veryLong]
        (by decide) (fun x b _ => by cases b <;> simp) df.rows
    have hdel :
        ((delivery_satisfaction_analysis df).2.map
            (fun s => s.Transaction_Count)).sum =
          (df.rows.filter (fun r => (delCut r.delivery_days).isSome)).length := by
      have hmap : (delivery_satisfaction_analysis df).2.map
            (fun s => s.Transaction_Count) =
          [DelLabel.fast, .standard, .slow, .verySlow].map (fun l =>
            (df.rows.filter (fun r => delCut r.delivery_days = some l)).length) :=
        rfl
      rw [hmap]
      exact sum_label_counts (fun r => delCut r.delivery_days)
        [DelLabel.fast, .standard, .slow, .verySlow]
        (by decide) (fun x b _ => by cases b <;> simp) df.rows
    refine ⟨?_, hsess, ?_, hdel, ?_, ?_⟩
    · intro r _ h
      unfold sessCut
      split_ifs with h1 h2 h3 h4 <;>
        first
        | rfl
        | (exfalso; rcases h with h | h <;> rcases ‹_ ∧ _› with ⟨ha, hb⟩ <;> linarith)
    · intro r _ h
      unfold delCut
      split_ifs with h1 h2 h3 h4 <;>
        first
        | rfl
        | (exfalso; rcases h with h | h <;> rcases ‹_ ∧ _› with ⟨ha, hb⟩ <;> linarith)
    · rw [hsess]; exact List.length_filter_le _ _
    · rw [hdel]; exact List.length_filter_le _ _
  · constructor <;> decide

/-- A concrete out-of-range row (session 200 min, delivery 40 days). -/
def rowOut : RealRow :=
  { transaction_id := "ORD1", customer_id := "C1", total_amount := 10,
    discount := 0, rating := 5, session_duration := 200, pages_viewed := 3,
    is_returning := false, delivery_days := 40, device_type := "Mobile",
    city := "Istanbul" }

/-- A concrete in-range row (session 20 min, delivery 4 days). -/
def rowIn : RealRow :=
  { transaction_id := "ORD2", customer_id := "C2", total_amount := 20,
    discount := 1, rating := 4, session_duration := 20, pages_viewed := 5,
    is_returning := true, delivery_days := 4, device_type := "Desktop",
    city := "Ankara" }

/-- A concrete frame mixing one out-of-range and one in-range row. -/
def frameMixed : RealFrame :=
  { rows := [rowOut, rowIn], session_segment := none, delivery_segment := none }

/-- Closed witness for C10 at a concrete frame containing one in-range row
and one out-of-range row. -/
theorem C10_out_of_range_dropped_witness :
    (sessCut rowOut.session_duration = none ∧
     delCut rowOut.delivery_days = none) ∧
    ((session_behavior_analysis frameMixed).2.map
        (fun s => s.Transactions)).sum = 1 := by
  have h := C10_out_of_range_dropped.1 frameMixed
  refine ⟨⟨h.1 rowOut (by decide) (Or.inr (by decide)),
           h.2.2.1 rowOut (by decide) (Or.inr (by decide))⟩, ?_⟩
  rw [h.2.1]
  decide

/-! ### Market basket analysis (`src/sales_analysis.py`) -/

/-- The distinct transaction ids of the table (`groupby("transaction_id")`
keys, in ascending order). -/
def mbTxIds (df : List TxRow) : List ℕ :=
  List.insertionSort (· ≤ ·) (df.map (fun r => r.transaction_id)).dedup

/-- The basket of a transaction: its product names. -/
def basketOf (df : List TxRow) (t : ℕ) : List String :=
  (df.filter (fun r => r.transaction_id = t)).map (fun r => r.product_name)

/-- Number of distinct transactions whose basket contains the item. -/
def productCount (df : List TxRow) (item : String) : ℕ :=
  (mbTxIds df).countP (fun t => item ∈ basketOf df t)

/-- Number of distinct transactions whose basket contains both items. -/
def pairCount (df : List TxRow) (a b : String) : ℕ :=
  (mbTxIds df).countP (fun t => a ∈ basketOf df t ∧ b ∈ basketOf df t)

structure BasketRule where
  Item_1 : String
  Item_2 : String
  Support : ℚ
  Confidence_1_to_2 : ℚ
  Confidence_2_to_1 : ℚ
  Lift : ℚ
deriving DecidableEq, Repr

/-- The association-rule record built for a surviving pair, with the
support/confidence/lift formulas of the source. -/
def mkRule (df : List TxRow) (a b : String) : BasketRule :=
  let T : ℚ := (mbTxIds df).length
  let pc : ℚ := pairCount df a b
  let c1 : ℚ := productCount df a
  let c2 : ℚ := productCount df b
  let support := pc / T
  let expected := (c1 / T) * (c2 / T)
  { Item_1 := a
    Item_2 := b
    Support := support
    Confidence_1_to_2 := pc / c1
    Confidence_2_to_1 := pc / c2
    Lift := if 0 < expected then support / expected else 0 }

/-- The canonical (sorted) unordered item pairs of the table. The source
enumerates the keys of its pair `Counter` — exactly the pairs `a < b` that
co-occur in some basket; the `pairCount ≥ 1` filter below reproduces that
key set. -/
def itemPairs (df : List TxRow) : List (String × String) :=
  let items := (df.map (fun r => r.product_name)).dedup
  items.flatMap (fun a =>
    items.filterMap (fun b => if a < b then some (a, b) else none))

/-- `market_basket_analysis`: keep the co-occurring pairs whose support meets
`minSupport` and at least one directional confidence meets `minConfidence`;
sort by lift descending (an empty list — the empty six-column table — when no
pair survives). -/
def market_basket_analysis (df : List TxRow) (minSupport minConfidence : ℚ) :
    List BasketRule :=
  let T : ℚ := (mbTxIds df).length
  let survivors := (itemPairs df).filter (fun p =>
    1 ≤ pairCount df p.1 p.2 ∧
    minSupport ≤ (pairCount df p.1 p.2 : ℚ) / T ∧
    (minConfidence ≤ (pairCount df p.1 p.2 : ℚ) / (productCount df p.1 : ℚ) ∨
     minConfidence ≤ (pairCount df p.1 p.2 : ℚ) / (productCount df p.2 : ℚ)))
  List.insertionSort (fun r s => s.Lift ≤ r.Lift)
    (survivors.map (fun p => mkRule df p.1 p.2))

theorem mem_itemPairs (df : List TxRow) (a b : String) :
    (a, b) ∈ itemPairs df ↔
      a ∈ df.map (fun r => r.product_name) ∧
      b ∈ df.map (fun r => r.product_name) ∧ a < b := by
  unfold itemPairs
  simp only [List.mem_flatMap, List.mem_filterMap, List.mem_dedup]
  constructor
  · rintro ⟨x, hx, y, hy, hxy⟩
    by_cases hlt : x < y
    · rw [if_pos hlt] at hxy
      obtain ⟨rfl, rfl⟩ := Prod.mk.injEq .. ▸ Option.some_inj.mp hxy
      exact ⟨hx, hy, hlt⟩
    · rw [if_neg hlt] at hxy; exact absurd hxy (by simp)
  · rintro ⟨ha, hb, hab⟩
    exact ⟨a, ha, b, hb, by rw [if_pos hab]⟩

/-- **C5.** `market_basket_analysis` returns exactly the unordered item pairs
(canonically `a < b`) whose support meets `min_support` and at least one
directional confidence meets `min_confidence` (for positive `min_support`);
each rule is the record with the support/confidence formulas and
`lift = pair_count · total_transactions / (count₁ · count₂)`; the result is
sorted by lift descending, and is the empty (six-column) table when no pair
clears both thresholds. -/
theorem C5_market_basket (df : List TxRow) (ms mc : ℚ) (hms : 0 < ms) :
    (∀ rule, rule ∈ market_basket_analysis df ms mc ↔
      ∃ a b, a < b ∧
        a ∈ df.map (fun r => r.product_name) ∧
        b ∈ df.map (fun r => r.product_name) ∧
        ms ≤ (pairCount df a b : ℚ) / ((mbTxIds df).length : ℚ) ∧
        (mc ≤ (pairCount df a b : ℚ) / (productCount df a : ℚ) ∨
         mc ≤ (pairCount df a b : ℚ) / (productCount df b : ℚ)) ∧
        rule = mkRule df a b) ∧
    (∀ a b, 1 ≤ pairCount df a b →
      (mkRule df a b).Lift =
        ((pairCount df a b : ℚ) * ((mbTxIds df).length : ℚ)) /
          ((productCount df a : ℚ) * (productCount df b : ℚ))) ∧
    List.Sorted (fun r s => s.Lift ≤ r.Lift) (market_basket_analysis df ms mc) ∧
    ((¬ ∃ a b, a < b ∧
        a ∈ df.map (fun r => r.product_name) ∧
        b ∈ df.map (fun r => r.product_name) ∧
        ms ≤ (pairCount df a b : ℚ) / ((mbTxIds df).length : ℚ) ∧
        (mc ≤ (pairCount df a b : ℚ) / (productCount df a : ℚ) ∨
         mc ≤ (pairCount df a b : ℚ) / (productCount df b : ℚ))) →
      market_basket_analysis df ms mc = []) := by
  have hTle : ∀ a b : String, pairCount df a b ≤ (mbTxIds df).length := by
    intro a b
    exact List.countP_le_length _
  have hc1 : ∀ a b : String, pairCount df a b ≤ productCount df a := by
    intro a b
    exact List.countP_mono_left (fun t _ h => by
      simp only [decide_eq_true_eq] at h ⊢
      exact h.1)
  have hc2 : ∀ a b : String, pairCount df a b ≤ productCount df b := by
    intro a b
    exact List.countP_mono_left (fun t _ h => by
      simp only [decide_eq_true_eq] at h ⊢
      exact h.2)
  have hmem : ∀ rule, rule ∈ market_basket_analysis df ms mc ↔
      ∃ a b, a < b ∧
        a ∈ df.map (fun r => r.product_name) ∧
        b ∈ df.map (fun r => r.product_name) ∧
        ms ≤ (pairCount df a b : ℚ) / ((mbTxIds df).length : ℚ) ∧
        (mc ≤ (pairCount df a b : ℚ) / (productCount df a : ℚ) ∨
         mc ≤ (pairCount df a b : ℚ) / (productCount df b : ℚ)) ∧
        rule = mkRule df a b := by
    intro rule
    unfold market_basket_analysis
    rw [(List.perm_insertionSort _ _).mem_iff]
    simp only [List.mem_map, List.mem_filter, decide_eq_true_eq]
    constructor
    · rintro ⟨⟨a, b⟩, ⟨hpair, hcond⟩, rfl⟩
      rw [mem_itemPairs] at hpair
      simp only [decide_eq_true_eq, Bool.and_eq_true, Bool.or_eq_true,
        decide_eq_true_eq] at hcond
      refine ⟨a, b, hpair.2.2, List.mem_map.mp hpair.1,
        List.mem_map.mp hpair.2.1, ?_, ?_, rfl⟩
      · exact_mod_cast hcond.2.1
      · exact_mod_cast hcond.2.2
    · rintro ⟨a, b, hab, ha, hb, hsupp, hconf, rfl⟩
      refine ⟨(a, b), ⟨(mem_itemPairs df a b).mpr
        ⟨List.mem_map.mpr ha, List.mem_map.mpr hb, hab⟩, ?_⟩, rfl⟩
      have hpc : 1 ≤ pairCount df a b := by
        by_contra hpc0
        push_neg at hpc0
        have h0 : pairCount df a b = 0 := by omega
        rw [h0] at hsupp
        simp only [Nat.cast_zero, zero_div] at hsupp
        linarith
      simp only [decide_eq_true_eq, Bool.and_eq_true, Bool.or_eq_true,
        decide_eq_true_eq]
      exact ⟨hpc, hsupp, hconf⟩
  refine ⟨hmem, ?_, ?_, ?_⟩
  · intro a b hpc
    have hT : 1 ≤ (mbTxIds df).length := le_trans hpc (hTle a b)
    have hca : 1 ≤ productCount df a := le_trans hpc (hc1 a b)
    have hcb : 1 ≤ productCount df b := le_trans hpc (hc2 a b)
    have hTq : (0 : ℚ) < ((mbTxIds df).length : ℚ) := by exact_mod_cast hT
    have hcaq : (0 : ℚ) < (productCount df a : ℚ) := by exact_mod_cast hca
    have hcbq : (0 : ℚ) < (productCount df b : ℚ) := by exact_mod_cast hcb
    unfold mkRule
    simp only []
    rw [if_pos (by positivity)]
    field_simp
    ring
  · unfold market_basket_analysis
    letI : IsTotal BasketRule (fun r s => s.Lift ≤ r.Lift) :=
      ⟨fun r s => le_total s.Lift r.Lift⟩
    letI : IsTrans BasketRule (fun r s => s.Lift ≤ r.Lift) :=
      ⟨fun _ _ _ h1 h2 => le_trans h2 h1⟩
    exact List.sorted_insertionSort _ _
  · intro hno
    rw [List.eq_nil_iff_forall_not_mem]
    intro rule hrule
    obtain ⟨a, b, hab, ha, hb, hsupp, hconf, -⟩ := (hmem rule).mp hrule
    exact hno ⟨a, b, hab, ha, hb, hsupp, hconf⟩

/-- Closed witness for C5: positive thresholds at a concrete three-row,
two-basket table. -/
theorem C5_market_basket_witness :
    (0 : ℚ) < 1/100 ∧
    List.Sorted (fun r s => s.Lift ≤ r.Lift)
      (market_basket_analysis
        [{ transaction_id := 1, customer_id := 1, product_name := "A",
           category := "Books", transaction_date := 19358, quantity := 1,
           total_amount := 10, profit := 2, discount := 0,
           payment_method := "PayPal", shipping_method := "Standard",
           day_of_week := "Sunday" },
         { transaction_id := 1, customer_id := 1, product_name := "B",
           category := "Toys", transaction_date := 19358, quantity := 1,
           total_amount := 5, profit := 1, discount := 0,
           payment_method := "PayPal", shipping_method := "Standard",
           day_of_week := "Sunday" },
         { transaction_id := 2, customer_id := 2, product_name := "A",
           category := "Books", transaction_date := 19359, quantity := 1,
           total_amount := 10, profit := 2, discount := 0,
           payment_method := "PayPal", shipping_method := "Standard",
           day_of_week := "Monday" }] (1/100) (3/10)) :=
  ⟨by norm_num, (C5_market_basket _ (1/100) (3/10) (by norm_num)).2.2.1⟩

/-! ### Forecasting (`src/sales_analysis.py`): resampling and forecast dates -/

/-- The month periods present in the table, ascending (`resample('M')`
produces the contiguous month range, but the months absent from the data
carry zero revenue and are removed by the positivity filter below, so only
the data months can survive). -/
def monthsOf (df : List TxRow) : List ℤ :=
  List.insertionSort (· ≤ ·)
    (df.map (fun r => monthOfDay r.transaction_date)).dedup

/-- Revenue of one month period. -/
def monthRevenue (df : List TxRow) (p : ℤ) : ℚ :=
  ((df.filter (fun r => monthOfDay r.transaction_date = p)).map
    (fun r => r.total_amount)).sum

/-- `resample('M')["total_amount"].sum()` followed by
`series = series[series > 0]`. -/
def seriesM (df : List TxRow) : List (ℤ × ℚ) :=
  ((monthsOf df).map (fun p => (p, monthRevenue df p))).filter
    (fun x => 0 < x.2)

/-- The `resample('W')` label of a day: the Sunday on/after it
(day numbers that are ≡ 3 (mod 7) are Sundays). -/
def weekLabel (t : ℤ) : ℤ := t + (3 - t) % 7

/-- The weekly labels present in the table, ascending. -/
def weeksOf (df : List TxRow) : List ℤ :=
  List.insertionSort (· ≤ ·)
    (df.map (fun r => weekLabel r.transaction_date)).dedup

/-- Revenue of one week. -/
def weekRevenue (df : List TxRow) (w : ℤ) : ℚ :=
  ((df.filter (fun r => weekLabel r.transaction_date = w)).map
    (fun r => r.total_amount)).sum

/-- Weekly resampled revenue series after the positivity filter. -/
def seriesW (df : List TxRow) : List (ℤ × ℚ) :=
  ((weeksOf df).map (fun w => (w, weekRevenue df w))).filter
    (fun x => 0 < x.2)

/-- The days present in the table, ascending. -/
def daysOf (df : List TxRow) : List ℤ :=
  List.insertionSort (· ≤ ·)
    (df.map (fun r => r.transaction_date)).dedup

/-- Revenue of one day. -/
def dayRevenue (df : List TxRow) (t : ℤ) : ℚ :=
  ((df.filter (fun r => r.transaction_date = t)).map
    (fun r => r.total_amount)).sum

/-- Daily resampled revenue series after the positivity filter. -/
def seriesD (df : List TxRow) : List (ℤ × ℚ) :=
  ((daysOf df).map (fun t => (t, dayRevenue df t))).filter (fun x => 0 < x.2)

/-- `pd.date_range(start, periods=n, freq='MS')`: month starts, beginning at
`start` itself when it is a month start and rolling forward to the next month
start otherwise. -/
def dateRangeMS (start : Date) (n : ℕ) : List Date :=
  let first := if start.d = 1 then monthIdx start else monthIdx start + 1
  (List.range n).map (fun (i : ℕ) => monthStart (first + (i : ℤ)))

/-- `pd.date_range(start, periods=n, freq='W')` (anchored weekly): Sundays,
beginning at `start` itself when it is on-anchor. -/
def dateRangeW (start : ℤ) (n : ℕ) : List ℤ :=
  (List.range n).map (fun (i : ℕ) => weekLabel start + 7 * (i : ℤ))

/-- `pd.date_range(start, periods=n, freq='D')`. -/
def dateRangeD (start : ℤ) (n : ℕ) : List ℤ :=
  (List.range n).map (fun (i : ℕ) => start + (i : ℤ))

/-- What a successful statsmodels ARIMA fit provides, modelled as oracle
data: the forecast path, the 95% confidence bounds per step, and the fit
statistics (`rmse` stands for `np.sqrt(fitted_model.mse)`, a float
computation performed outside the embedded fragment). -/
structure FitOutcome where
  forecastVals : ℕ → ℚ
  ciLower : ℕ → ℚ
  ciUpper : ℕ → ℚ
  aic : ℚ
  bic : ℚ
  rmse : ℚ

/-- A row of the ARIMA forecast table for monthly frequency
(dates are month-start calendar dates). -/
structure ForecastRowM where
  date : Date
  revenue : ℚ
  lower : ℚ
  upper : ℚ
deriving DecidableEq, Repr

/-- A row of the ARIMA forecast table for weekly/daily frequency
(dates as day numbers). -/
structure ForecastRowZ where
  date : ℤ
  revenue : ℚ
  lower : ℚ
  upper : ℚ
deriving DecidableEq, Repr

structure ArimaSummary where
  aic : ℚ
  bic : ℚ
  rmse : ℚ
  order : ℕ × ℕ × ℕ
  observations : ℕ
deriving DecidableEq, Repr

/-- `arima_sales_forecast` with `freq='M'`: the whole body runs inside
`try/except`, every failure (fewer than 10 positive periods — the explicit
`ValueError` — or a fitting exception, `fit _ = none`) yields the structured
`none` result instead of propagating. -/
def arima_sales_forecastM (fit : List (ℤ × ℚ) → Option FitOutcome)
    (df : List TxRow) (periods : ℕ) (order : ℕ × ℕ × ℕ) :
    Option (List (ℤ × ℚ) × List ForecastRowM × ArimaSummary) :=
  let s := seriesM df
  if s.length < 10 then none
  else
    match fit s with
    | none => none
    | some f =>
        let lastP := (s.getLastD (0, 0)).1
        let dates := (dateRangeMS (monthEnd lastP) (periods + 1)).drop 1
        let fc := dates.enum.map (fun x =>
          { date := x.2
            revenue := f.forecastVals x.1
            lower := f.ciLower x.1
            upper := f.ciUpper x.1 : ForecastRowM })
        some (s, fc,
          { aic := f.aic, bic := f.bic, rmse := f.rmse, order := order,
            observations := s.length })

/-- `arima_sales_forecast` with `freq='W'`. -/
def arima_sales_forecastW (fit : List (ℤ × ℚ) → Option FitOutcome)
    (df : List TxRow) (periods : ℕ) (order : ℕ × ℕ × ℕ) :
    Option (List (ℤ × ℚ) × List ForecastRowZ × ArimaSummary) :=
  let s := seriesW df
  if s.length < 10 then none
  else
    match fit s with
    | none => none
    | some f =>
        let lastW := (s.getLastD (0, 0)).1
        let dates := (dateRangeW lastW (periods + 1)).drop 1
        let fc := dates.enum.map (fun x =>
          { date := x.2
            revenue := f.forecastVals x.1
            lower := f.ciLower x.1
            upper := f.ciUpper x.1 : ForecastRowZ })
        some (s, fc,
          { aic := f.aic, bic := f.bic, rmse := f.rmse, order := order,
            observations := s.length })

/-- `arima_sales_forecast` with `freq='D'` (the `else` branch). -/
def arima_sales_forecastD (fit : List (ℤ × ℚ) → Option FitOutcome)
    (df : List TxRow) (periods : ℕ) (order : ℕ × ℕ × ℕ) :
    Option (List (ℤ × ℚ) × List ForecastRowZ × ArimaSummary) :=
  let s := seriesD df
  if s.length < 10 then none
  else
    match fit s with
    | none => none
    | some f =>
        let lastT := (s.getLastD (0, 0)).1
        let dates := (dateRangeD lastT (periods + 1)).drop 1
        let fc := dates.enum.map (fun x =>
          { date := x.2
            revenue := f.forecastVals x.1
            lower := f.ciLower x.1
            upper := f.ciUpper x.1 : ForecastRowZ })
        some (s, fc,
          { aic := f.aic, bic := f.bic, rmse := f.rmse, order := order,
            observations := s.length })

/-- What a successful exponential-smoothing fit provides. -/
structure ESOutcome where
  forecastVals : ℕ → ℚ

/-- `exponential_smoothing_forecast` with `freq='M'` (no minimum-length
check; any fitting failure is caught and yields `none`). -/
def exponential_smoothing_forecastM (fit : List (ℤ × ℚ) → Option ESOutcome)
    (df : List TxRow) (periods : ℕ) :
    Option (List (ℤ × ℚ) × List (Date × ℚ)) :=
  let s := seriesM df
  match fit s with
  | none => none
  | some f =>
      let lastP := (s.getLastD (0, 0)).1
      let dates := (dateRangeMS (monthEnd lastP) (periods + 1)).drop 1
      some (s, dates.enum.map (fun x => (x.2, f.forecastVals x.1)))

/-- `exponential_smoothing_forecast` with `freq='W'`. -/
def exponential_smoothing_forecastW (fit : List (ℤ × ℚ) → Option ESOutcome)
    (df : List TxRow) (periods : ℕ) :
    Option (List (ℤ × ℚ) × List (ℤ × ℚ)) :=
  let s := seriesW df
  match fit s with
  | none => none
  | some f =>
      let lastW := (s.getLastD (0, 0)).1
      let dates := (dateRangeW lastW (periods + 1)).drop 1
      some (s, dates.enum.map (fun x => (x.2, f.forecastVals x.1)))

/-- `exponential_smoothing_forecast` with `freq='D'`. -/
def exponential_smoothing_forecastD (fit : List (ℤ × ℚ) → Option ESOutcome)
    (df : List TxRow) (periods : ℕ) :
    Option (List (ℤ × ℚ) × List (ℤ × ℚ)) :=
  let s := seriesD df
  match fit s with
  | none => none
  | some f =>
      let lastT := (s.getLastD (0, 0)).1
      let dates := (dateRangeD lastT (periods + 1)).drop 1
      some (s, dates.enum.map (fun x => (x.2, f.forecastVals x.1)))

/-- Strict lexicographic order on calendar dates. -/
def dateLt (a b : Date) : Prop :=
  a.y < b.y ∨ (a.y = b.y ∧ (a.m < b.m ∨ (a.m = b.m ∧ a.d < b.d)))

theorem getLastD_mem {α : Type} (l : List α) (d : α) (h : l ≠ []) :
    l.getLastD d ∈ l := by
  rw [List.getLastD_eq_getLast?, List.getLast?_eq_getLast l h]
  exact List.getLast_mem h

theorem monthIdx_monthEnd (i : ℤ) : monthIdx (monthEnd i) = i := by
  unfold monthIdx monthEnd
  have h1 : 0 ≤ i % 12 := Int.emod_nonneg i (by norm_num)
  have h2 := Int.ediv_add_emod i 12
  simp only []
  omega

theorem monthEnd_d_ne_one (i : ℤ) : (monthEnd i).d ≠ 1 :=
  daysInMonth_ne_one _ _

theorem weekLabel_idem (t : ℤ) : weekLabel (weekLabel t) = weekLabel t := by
  unfold weekLabel
  have h := Int.ediv_add_emod (3 - t) 7
  have h2 : 3 - (t + (3 - t) % 7) = 7 * ((3 - t) / 7) := by omega
  rw [h2, Int.mul_emod_right]
  omega

theorem seriesW_last_anchor (df : List TxRow) (h : seriesW df ≠ []) :
    weekLabel ((seriesW df).getLastD (0, 0)).1 =
      ((seriesW df).getLastD (0, 0)).1 := by
  have hmem : (seriesW df).getLastD (0, 0) ∈ seriesW df := getLastD_mem _ _ h
  have hgen : ∀ x ∈ seriesW df, ∃ r : TxRow,
      x.1 = weekLabel r.transaction_date := by
    intro x hx
    unfold seriesW weeksOf at hx
    have hx2 := (List.mem_filter.mp hx).1
    obtain ⟨w, hw, heq⟩ := List.mem_map.mp hx2
    rw [(List.perm_insertionSort _ _).mem_iff, List.mem_dedup] at hw
    obtain ⟨r, -, hr⟩ := List.mem_map.mp hw
    exact ⟨r, by rw [← heq, hr]⟩
  obtain ⟨r, hr⟩ := hgen _ hmem
  rw [hr]
  exact weekLabel_idem _

theorem drop_one_range_map {α : Type} (g : ℕ → α) (n : ℕ) :
    ((List.range (n + 1)).map g).drop 1 =
      (List.range n).map (fun i => g (i + 1)) := by
  rw [List.range_succ_eq_map, List.map_cons, List.drop_succ_cons,
    List.drop_zero, List.map_map]
  rfl

theorem length_drop_one_range_map {α : Type} (g : ℕ → α) (n : ℕ) :
    (((List.range (n + 1)).map g).drop 1).length = n := by
  rw [drop_one_range_map, List.length_map, List.length_range]

theorem dateRangeMS_monthEnd (p : ℤ) (n : ℕ) :
    dateRangeMS (monthEnd p) n =
      (List.range n).map (fun (i : ℕ) => monthStart (p + 1 + (i : ℤ))) := by
  unfold dateRangeMS
  rw [if_neg (monthEnd_d_ne_one p), monthIdx_monthEnd]

theorem monthStart_lt_succ (i : ℤ) : dateLt (monthStart i) (monthStart (i + 1)) := by
  unfold dateLt monthStart
  have h1 := Int.ediv_add_emod i 12
  have h2 := Int.ediv_add_emod (i + 1) 12
  have h3 : 0 ≤ i % 12 := Int.emod_nonneg i (by norm_num)
  have h4 : i % 12 < 12 := Int.emod_lt_of_pos i (by norm_num)
  have h5 : 0 ≤ (i + 1) % 12 := Int.emod_nonneg (i + 1) (by norm_num)
  have h6 : (i + 1) % 12 < 12 := Int.emod_lt_of_pos (i + 1) (by norm_num)
  simp only []
  omega

/-- **C7.** `arima_sales_forecast` never raises: for each frequency, the
result is the structured failure `none` exactly when the positive resampled
series has fewer than 10 periods or the model fit raises; on success it
returns the historical series, a `periods`-row forecast carrying the
per-step 95% confidence bounds, and the fit statistics (AIC, BIC, RMSE). -/
theorem C7_arima_soft_failure (fit : List (ℤ × ℚ) → Option FitOutcome)
    (df : List TxRow) (periods : ℕ) (order : ℕ × ℕ × ℕ) :
    (arima_sales_forecastM fit df periods order = none ↔
      (seriesM df).length < 10 ∨ fit (seriesM df) = none) ∧
    (∀ f, fit (seriesM df) = some f → ¬ (seriesM df).length < 10 →
      ∃ fc, arima_sales_forecastM fit df periods order =
          some (seriesM df, fc,
            { aic := f.aic, bic := f.bic, rmse := f.rmse, order := order,
              observations := (seriesM df).length }) ∧
        fc.length = periods ∧
        ∀ i, (h : i < fc.length) →
          fc[i].revenue = f.forecastVals i ∧ fc[i].lower = f.ciLower i ∧
          fc[i].upper = f.ciUpper i) ∧
    (arima_sales_forecastW fit df periods order = none ↔
      (seriesW df).length < 10 ∨ fit (seriesW df) = none) ∧
    (∀ f, fit (seriesW df) = some f → ¬ (seriesW df).length < 10 →
      ∃ fc, arima_sales_forecastW fit df periods order =
          some (seriesW df, fc,
            { aic := f.aic, bic := f.bic, rmse := f.rmse, order := order,
              observations := (seriesW df).length }) ∧
        fc.length = periods ∧
        ∀ i, (h : i < fc.length) →
          fc[i].revenue = f.forecastVals i ∧ fc[i].lower = f.ciLower i ∧
          fc[i].upper = f.ciUpper i) ∧
    (arima_sales_forecastD fit df periods order = none ↔
      (seriesD df).length < 10 ∨ fit (seriesD df) = none) ∧
    (∀ f, fit (seriesD df) = some f → ¬ (seriesD df).length < 10 →
      ∃ fc, arima_sales_forecastD fit df periods order =
          some (seriesD df, fc,
            { aic := f.aic, bic := f.bic, rmse := f.rmse, order := order,
              observations := (seriesD df).length }) ∧
        fc.length = periods ∧
        ∀ i, (h : i < fc.length) →
          fc[i].revenue = f.forecastVals i ∧ fc[i].lower = f.ciLower i ∧
          fc[i].upper = f.ciUpper i) := by
  refine ⟨?_, ?_, ?_, ?_, ?_, ?_⟩
  · unfold arima_sales_forecastM
    by_cases hlen : (seriesM df).length < 10
    · simp [hlen]
    · cases hfit : fit (seriesM df) with
      | none => simp [hlen, hfit]
      | some f => simp [hlen, hfit]
  · intro f hf hlen
    simp only [arima_sales_forecastM, if_neg hlen, hf]
    refine ⟨_, rfl, ?_, ?_⟩
    · rw [List.length_map, List.enum_length]
      simp only [dateRangeMS]
      exact length_drop_one_range_map _ _
    · intro i h
      refine ⟨?_, ?_, ?_⟩ <;>
        simp [List.getElem_map, List.getElem_enum]
  · unfold arima_sales_forecastW
    by_cases hlen : (seriesW df).length < 10
    · simp [hlen]
    · cases hfit : fit (seriesW df) with
      | none => simp [hlen, hfit]
      | some f => simp [hlen, hfit]
  · intro f hf hlen
    simp only [arima_sales_forecastW, if_neg hlen, hf]
    refine ⟨_, rfl, ?_, ?_⟩
    · rw [List.length_map, List.enum_length]
      simp only [dateRangeW]
      exact length_drop_one_range_map _ _
    · intro i h
      refine ⟨?_, ?_, ?_⟩ <;>
        simp [List.getElem_map, List.getElem_enum]
  · unfold arima_sales_forecastD
    by_cases hlen : (seriesD df).length < 10
    · simp [hlen]
    · cases hfit : fit (seriesD df) with
      | none => simp [hlen, hfit]
      | some f => simp [hlen, hfit]
  · intro f hf hlen
    simp only [arima_sales_forecastD, if_neg hlen, hf]
    refine ⟨_, rfl, ?_, ?_⟩
    · rw [List.length_map, List.enum_length]
      simp only [dateRangeD]
      exact length_drop_one_range_map _ _
    · intro i h
      refine ⟨?_, ?_, ?_⟩ <;>
        simp [List.getElem_map, List.getElem_enum]

theorem map_fst_enum_map {α β : Type} (dates : List α) (g : ℕ × α → β)
    (proj : β → α) (hproj : ∀ x, proj (g x) = x.2) :
    (dates.enum.map g).map proj = dates := by
  rw [List.map_map]
  have hfun : proj ∘ g = Prod.snd := funext hproj
  rw [hfun, List.enum_map_snd]

theorem map_date_fcM (dates : List Date) (f : FitOutcome) :
    (dates.enum.map (fun x =>
      { date := x.2, revenue := f.forecastVals x.1, lower := f.ciLower x.1,
        upper := f.ciUpper x.1 : ForecastRowM })).map (fun r => r.date) =
      dates :=
  map_fst_enum_map _ _ _ (fun x => rfl)

theorem map_date_fcZ (dates : List ℤ) (f : FitOutcome) :
    (dates.enum.map (fun x =>
      { date := x.2, revenue := f.forecastVals x.1, lower := f.ciLower x.1,
        upper := f.ciUpper x.1 : ForecastRowZ })).map (fun r => r.date) =
      dates :=
  map_fst_enum_map _ _ _ (fun x => rfl)

theorem map_fst_esPairs {α : Type} (dates : List α) (f : ESOutcome) :
    (dates.enum.map (fun x => (x.2, f.forecastVals x.1))).map
      (fun p => p.1) = dates :=
  map_fst_enum_map _ _ _ (fun x => rfl)

theorem datesM_closed (lastP : ℤ) (periods : ℕ) :
    (dateRangeMS (monthEnd lastP) (periods + 1)).drop 1 =
      (List.range periods).map (fun (i : ℕ) =>
        monthStart (lastP + 2 + (i : ℤ))) := by
  rw [dateRangeMS_monthEnd, drop_one_range_map]
  apply List.map_congr_left
  intro i _
  congr 1
  push_cast
  ring

theorem datesW_closed (lastW : ℤ) (periods : ℕ) (hanchor : weekLabel lastW = lastW) :
    (dateRangeW lastW (periods + 1)).drop 1 =
      (List.range periods).map (fun (i : ℕ) => lastW + 7 * ((i : ℤ) + 1)) := by
  unfold dateRangeW
  rw [hanchor, drop_one_range_map]
  apply List.map_congr_left
  intro i _
  push_cast
  ring

theorem datesD_closed (lastT : ℤ) (periods : ℕ) :
    (dateRangeD lastT (periods + 1)).drop 1 =
      (List.range periods).map (fun (i : ℕ) => lastT + ((i : ℤ) + 1)) := by
  unfold dateRangeD
  rw [drop_one_range_map]
  apply List.map_congr_left
  intro i _
  push_cast
  ring

theorem chain_monthStart (base : ℤ) (periods : ℕ) :
    List.Chain' dateLt ((List.range periods).map (fun (i : ℕ) =>
      monthStart (base + (i : ℤ)))) := by
  rw [List.chain'_map]
  cases periods with
  | zero => simp
  | succ n =>
      rw [List.chain'_range_succ]
      intro m _
      have h := monthStart_lt_succ (base + (m : ℤ))
      have harg : base + (m : ℤ) + 1 = base + ((m : ℕ).succ : ℤ) := by
        push_cast; ring
      rwa [harg] at h

/-- **C3 (amended).** For both forecasting methods, requesting `periods`
steps returns exactly `periods` forecast rows with strictly increasing dates
at the requested frequency. For weekly and daily frequency the dates continue
immediately after the last historical label (`last + 7·(i+1)` resp.
`last + (i+1)`); for monthly frequency the dates are consecutive month
starts but skip one month: the first forecast date is the start of the
*second* month after the last historical month (`monthStart (last + 2 + i)`),
not of the month immediately following it. -/
theorem C3_forecast_dates_amended (fit : List (ℤ × ℚ) → Option FitOutcome)
    (efit : List (ℤ × ℚ) → Option ESOutcome) (df : List TxRow)
    (periods : ℕ) (order : ℕ × ℕ × ℕ) :
    (∀ hist fc s,
      arima_sales_forecastM fit df periods order = some (hist, fc, s) →
      fc.map (fun r => r.date) =
        (List.range periods).map (fun (i : ℕ) =>
          monthStart (((seriesM df).getLastD (0, 0)).1 + 2 + (i : ℤ))) ∧
      List.Chain' dateLt (fc.map (fun r => r.date))) ∧
    (∀ hist fc s,
      arima_sales_forecastW fit df periods order = some (hist, fc, s) →
      fc.map (fun r => r.date) =
        (List.range periods).map (fun (i : ℕ) =>
          ((seriesW df).getLastD (0, 0)).1 + 7 * ((i : ℤ) + 1))) ∧
    (∀ hist fc s,
      arima_sales_forecastD fit df periods order = some (hist, fc, s) →
      fc.map (fun r => r.date) =
        (List.range periods).map (fun (i : ℕ) =>
          ((seriesD df).getLastD (0, 0)).1 + ((i : ℤ) + 1))) ∧
    (∀ hist fc,
      exponential_smoothing_forecastM efit df periods = some (hist, fc) →
      fc.map (fun x => x.1) =
        (List.range periods).map (fun (i : ℕ) =>
          monthStart (((seriesM df).getLastD (0, 0)).1 + 2 + (i : ℤ))) ∧
      List.Chain' dateLt (fc.map (fun x => x.1))) ∧
    (seriesW df ≠ [] → ∀ hist fc,
      exponential_smoothing_forecastW efit df periods = some (hist, fc) →
      fc.map (fun x => x.1) =
        (List.range periods).map (fun (i : ℕ) =>
          ((seriesW df).getLastD (0, 0)).1 + 7 * ((i : ℤ) + 1))) ∧
    (∀ hist fc,
      exponential_smoothing_forecastD efit df periods = some (hist, fc) →
      fc.map (fun x => x.1) =
        (List.range periods).map (fun (i : ℕ) =>
          ((seriesD df).getLastD (0, 0)).1 + ((i : ℤ) + 1))) := by
  refine ⟨?_, ?_, ?_, ?_, ?_, ?_⟩
  · intro hist fc s hsome
    unfold arima_sales_forecastM at hsome
    dsimp only at hsome
    split at hsome
    · exact absurd hsome (by simp)
    · cases hfit : fit (seriesM df) with
      | none => rw [hfit] at hsome; exact absurd hsome (by simp)
      | some f =>
          rw [hfit] at hsome
          simp only [Option.some.injEq, Prod.mk.injEq] at hsome
          obtain ⟨-, hfc, -⟩ := hsome
          subst hfc
          rw [map_date_fcM, datesM_closed]
          refine ⟨rfl, ?_⟩
          exact chain_monthStart (((seriesM df).getLastD (0, 0)).1 + 2) periods
  · intro hist fc s hsome
    unfold arima_sales_forecastW at hsome
    dsimp only at hsome
    split at hsome
    · exact absurd hsome (by simp)
    · rename_i hlen
      cases hfit : fit (seriesW df) with
      | none => rw [hfit] at hsome; exact absurd hsome (by simp)
      | some f =>
          rw [hfit] at hsome
          simp only [Option.some.injEq, Prod.mk.injEq] at hsome
          obtain ⟨-, hfc, -⟩ := hsome
          subst hfc
          have hne : seriesW df ≠ [] := by
            intro hnil
            rw [hnil] at hlen
            simp at hlen
          rw [map_date_fcZ, datesW_closed _ _ (seriesW_last_anchor df hne)]
  · intro hist fc s hsome
    unfold arima_sales_forecastD at hsome
    dsimp only at hsome
    split at hsome
    · exact absurd hsome (by simp)
    · cases hfit : fit (seriesD df) with
      | none => rw [hfit] at hsome; exact absurd hsome (by simp)
      | some f =>
          rw [hfit] at hsome
          simp only [Option.some.injEq, Prod.mk.injEq] at hsome
          obtain ⟨-, hfc, -⟩ := hsome
          subst hfc
          rw [map_date_fcZ, datesD_closed]
  · intro hist fc hsome
    unfold exponential_smoothing_forecastM at hsome
    dsimp only at hsome
    cases hfit : efit (seriesM df) with
    | none => rw [hfit] at hsome; exact absurd hsome (by simp)
    | some f =>
        rw [hfit] at hsome
        simp only [Option.some.injEq, Prod.mk.injEq] at hsome
        obtain ⟨-, hfc⟩ := hsome
        subst hfc
        rw [map_fst_esPairs, datesM_closed]
        refine ⟨rfl, ?_⟩
        exact chain_monthStart (((seriesM df).getLastD (0, 0)).1 + 2) periods
  · intro hne hist fc hsome
    unfold exponential_smoothing_forecastW at hsome
    dsimp only at hsome
    cases hfit : efit (seriesW df) with
    | none => rw [hfit] at hsome; exact absurd hsome (by simp)
    | some f =>
        rw [hfit] at hsome
        simp only [Option.some.injEq, Prod.mk.injEq] at hsome
        obtain ⟨-, hfc⟩ := hsome
        subst hfc
        rw [map_fst_esPairs, datesW_closed _ _ (seriesW_last_anchor df hne)]
  · intro hist fc hsome
    unfold exponential_smoothing_forecastD at hsome
    dsimp only at hsome
    cases hfit : efit (seriesD df) with
    | none => rw [hfit] at hsome; exact absurd hsome (by simp)
    | some f =>
        rw [hfit] at hsome
        simp only [Option.some.injEq, Prod.mk.injEq] at hsome
        obtain ⟨-, hfc⟩ := hsome
        subst hfc
        rw [map_fst_esPairs, datesD_closed]

/-- A concrete completed transaction used by the forecasting witnesses. -/
def sampleTx (i : ℕ) (t : ℤ) : TxRow :=
  { transaction_id := i, customer_id := 1, product_name := "A",
    category := "Books", transaction_date := t, quantity := 1,
    total_amount := 10, profit := 2, discount := 0,
    payment_method := "PayPal", shipping_method := "Standard",
    day_of_week := "Sunday" }

/-- Twelve transactions, one in each month of 2023 (on the 15th). -/
def dfMonthly : List TxRow :=
  (List.range 12).map (fun i => sampleTx (i + 1) (daysFromCivil ⟨2023, i + 1, 15⟩))

/-- Ten transactions on ten consecutive Sundays (day numbers ≡ 3 mod 7). -/
def dfWeekly : List TxRow :=
  (List.range 10).map (fun i => sampleTx (i + 1) (3 + 7 * (i : ℤ)))

/-- Ten transactions on ten consecutive days. -/
def dfDaily : List TxRow :=
  (List.range 10).map (fun i => sampleTx (i + 1) (i : ℤ))

/-- A concrete always-succeeding ARIMA fit oracle. -/
def fitConst : FitOutcome :=
  { forecastVals := fun _ => 100, ciLower := fun _ => 90,
    ciUpper := fun _ => 110, aic := 1, bic := 2, rmse := 3 }

/-- A concrete always-succeeding exponential-smoothing fit oracle. -/
def esConst : ESOutcome := { forecastVals := fun _ => 50 }

/-- A single December-2023 transaction (day 19706 = 2023-12-15). -/
def dfOneMonth : List TxRow := [sampleTx 1 19706]

theorem seriesD_dfDaily : seriesD dfDaily =
    [((0:ℤ), (10:ℚ)), (1, 10), (2, 10), (3, 10), (4, 10), (5, 10), (6, 10),
     (7, 10), (8, 10), (9, 10)] := by
  have hdf : dfDaily = [sampleTx 1 0, sampleTx 2 1, sampleTx 3 2, sampleTx 4 3,
      sampleTx 5 4, sampleTx 6 5, sampleTx 7 6, sampleTx 8 7, sampleTx 9 8,
      sampleTx 10 9] := by decide
  have hd : daysOf dfDaily = [0, 1, 2, 3, 4, 5, 6, 7, 8, 9] := by decide
  unfold seriesD dayRevenue
  rw [hd, hdf]
  norm_num [sampleTx, List.filter]

theorem seriesW_dfWeekly : seriesW dfWeekly =
    [((3:ℤ), (10:ℚ)), (10, 10), (17, 10), (24, 10), (31, 10), (38, 10), (45, 10), (52, 10), (59, 10), (66, 10)] := by
  have hw : weeksOf dfWeekly = [3, 10, 17, 24, 31, 38, 45, 52, 59, 66] := by decide
  have hf1 : dfWeekly.filter (fun r => weekLabel r.transaction_date = 3) =
      [sampleTx 1 3] := by decide
  have hf2 : dfWeekly.filter (fun r => weekLabel r.transaction_date = 10) =
      [sampleTx 2 10] := by decide
  have hf3 : dfWeekly.filter (fun r => weekLabel r.transaction_date = 17) =
      [sampleTx 3 17] := by decide
  have hf4 : dfWeekly.filter (fun r => weekLabel r.transaction_date = 24) =
      [sampleTx 4 24] := by decide
  have hf5 : dfWeekly.filter (fun r => weekLabel r.transaction_date = 31) =
      [sampleTx 5 31] := by decide
  have hf6 : dfWeekly.filter (fun r => weekLabel r.transaction_date = 38) =
      [sampleTx 6 38] := by decide
  have hf7 : dfWeekly.filter (fun r => weekLabel r.transaction_date = 45) =
      [sampleTx 7 45] := by decide
  have hf8 : dfWeekly.filter (fun r => weekLabel r.transaction_date = 52) =
      [sampleTx 8 52] := by decide
  have hf9 : dfWeekly.filter (fun r => weekLabel r.transaction_date = 59) =
      [sampleTx 9 59] := by decide
  have hf10 : dfWeekly.filter (fun r => weekLabel r.transaction_date = 66) =
      [sampleTx 10 66] := by decide
  unfold seriesW weekRevenue
  rw [hw]
  simp only [List.map_cons, List.map_nil, hf1, hf2, hf3, hf4, hf5, hf6, hf7, hf8, hf9, hf10]
  norm_num [sampleTx]

theorem seriesM_dfMonthly : seriesM dfMonthly =
    [((24276:ℤ), (10:ℚ)), (24277, 10), (24278, 10), (24279, 10), (24280, 10), (24281, 10), (24282, 10), (24283, 10), (24284, 10), (24285, 10), (24286, 10), (24287, 10)] := by
  have hm : monthsOf dfMonthly = [24276, 24277, 24278, 24279, 24280, 24281, 24282, 24283, 24284, 24285, 24286, 24287] := by decide
  have hg1 : dfMonthly.filter (fun r => monthOfDay r.transaction_date = 24276) =
      [sampleTx 1 19372] := by decide
  have hg2 : dfMonthly.filter (fun r => monthOfDay r.transaction_date = 24277) =
      [sampleTx 2 19403] := by decide
  have hg3 : dfMonthly.filter (fun r => monthOfDay r.transaction_date = 24278) =
      [sampleTx 3 19431] := by decide
  have hg4 : dfMonthly.filter (fun r => monthOfDay r.transaction_date = 24279) =
      [sampleTx 4 19462] := by decide
  have hg5 : dfMonthly.filter (fun r => monthOfDay r.transaction_date = 24280) =
      [sampleTx 5 19492] := by decide
  have hg6 : dfMonthly.filter (fun r => monthOfDay r.transaction_date = 24281) =
      [sampleTx 6 19523] := by decide
  have hg7 : dfMonthly.filter (fun r => monthOfDay r.transaction_date = 24282) =
      [sampleTx 7 19553] := by decide
  have hg8 : dfMonthly.filter (fun r => monthOfDay r.transaction_date = 24283) =
      [sampleTx 8 19584] := by decide
  have hg9 : dfMonthly.filter (fun r => monthOfDay r.transaction_date = 24284) =
      [sampleTx 9 19615] := by decide
  have hg10 : dfMonthly.filter (fun r => monthOfDay r.transaction_date = 24285) =
      [sampleTx 10 19645] := by decide
  have hg11 : dfMonthly.filter (fun r => monthOfDay r.transaction_date = 24286) =
      [sampleTx 11 19676] := by decide
  have hg12 : dfMonthly.filter (fun r => monthOfDay r.transaction_date = 24287) =
      [sampleTx 12 19706] := by decide
  unfold seriesM monthRevenue
  rw [hm]
  simp only [List.map_cons, List.map_nil, hg1, hg2, hg3, hg4, hg5, hg6, hg7, hg8, hg9, hg10, hg11, hg12]
  norm_num [sampleTx]

theorem seriesM_dfOneMonth : seriesM dfOneMonth = [((24287:ℤ), (10:ℚ))] := by
  have hm : monthsOf dfOneMonth = [24287] := by decide
  have hf : dfOneMonth.filter (fun r => monthOfDay r.transaction_date = 24287) =
      [sampleTx 1 19706] := by decide
  unfold seriesM monthRevenue
  rw [hm]
  simp only [List.map_cons, List.map_nil, hf]
  norm_num [sampleTx]

/-- **C3 counterexample.** With one month of history (December 2023), the
monthly exponential-smoothing forecast's first date is 2024-02-01, although
the period immediately after the final historical period is January 2024
(`monthStart (monthIdx + 1) = 2024-01-01`): the month right after the last
historical date is skipped, refuting the claim for monthly frequency. -/
theorem C3_counterexample :
    (exponential_smoothing_forecastM (fun _ => some esConst) dfOneMonth 6).map
        (fun r => r.2.map (fun x => x.1)) =
      some [⟨2024, 2, 1⟩, ⟨2024, 3, 1⟩, ⟨2024, 4, 1⟩, ⟨2024, 5, 1⟩,
            ⟨2024, 6, 1⟩, ⟨2024, 7, 1⟩] ∧
    ((seriesM dfOneMonth).getLastD (0, 0)).1 = monthIdx ⟨2023, 12, 15⟩ ∧
    monthStart (monthIdx ⟨2023, 12, 15⟩ + 1) = ⟨2024, 1, 1⟩ ∧
    (⟨2024, 2, 1⟩ : Date) ≠ ⟨2024, 1, 1⟩ := by
  refine ⟨?_, ?_, by decide, by decide⟩
  · unfold exponential_smoothing_forecastM
    dsimp only
    rw [seriesM_dfOneMonth]
    decide
  · rw [seriesM_dfOneMonth]
    decide

/-- Closed witness for C3 (amended): each of the six branch conclusions
instantiated at a concrete successful run. -/
theorem C3_forecast_dates_amended_witness :
    ((arima_sales_forecastM (fun _ => some fitConst) dfMonthly 6 (1, 1, 1)).map
        (fun r => r.2.1.map (fun x => x.date)) =
      some ((List.range 6).map (fun (i : ℕ) =>
        monthStart (((seriesM dfMonthly).getLastD (0, 0)).1 + 2 + (i : ℤ))))) ∧
    ((arima_sales_forecastW (fun _ => some fitConst) dfWeekly 6 (1, 1, 1)).map
        (fun r => r.2.1.map (fun x => x.date)) =
      some ((List.range 6).map (fun (i : ℕ) =>
        ((seriesW dfWeekly).getLastD (0, 0)).1 + 7 * ((i : ℤ) + 1)))) ∧
    ((arima_sales_forecastD (fun _ => some fitConst) dfDaily 6 (1, 1, 1)).map
        (fun r => r.2.1.map (fun x => x.date)) =
      some ((List.range 6).map (fun (i : ℕ) =>
        ((seriesD dfDaily).getLastD (0, 0)).1 + ((i : ℤ) + 1)))) ∧
    ((exponential_smoothing_forecastM (fun _ => some esConst) dfOneMonth 6).map
        (fun r => r.2.map (fun x => x.1)) =
      some ((List.range 6).map (fun (i : ℕ) =>
        monthStart (((seriesM dfOneMonth).getLastD (0, 0)).1 + 2 + (i : ℤ))))) ∧
    ((exponential_smoothing_forecastW (fun _ => some esConst) dfWeekly 6).map
        (fun r => r.2.map (fun x => x.1)) =
      some ((List.range 6).map (fun (i : ℕ) =>
        ((seriesW dfWeekly).getLastD (0, 0)).1 + 7 * ((i : ℤ) + 1)))) ∧
    ((exponential_smoothing_forecastD (fun _ => some esConst) dfDaily 6).map
        (fun r => r.2.map (fun x => x.1)) =
      some ((List.range 6).map (fun (i : ℕ) =>
        ((seriesD dfDaily).getLastD (0, 0)).1 + ((i : ℤ) + 1)))) := by
  have hlenM : ¬ (seriesM dfMonthly).length < 10 := by
    rw [seriesM_dfMonthly]; simp
  have hlenW : ¬ (seriesW dfWeekly).length < 10 := by
    rw [seriesW_dfWeekly]; simp
  have hlenD : ¬ (seriesD dfDaily).length < 10 := by
    rw [seriesD_dfDaily]; simp
  have hneW : seriesW dfWeekly ≠ [] := by
    rw [seriesW_dfWeekly]; simp
  refine ⟨?_, ?_, ?_, ?_, ?_, ?_⟩
  · cases harima : arima_sales_forecastM (fun _ => some fitConst) dfMonthly 6 (1, 1, 1) with
    | none =>
        unfold arima_sales_forecastM at harima
        dsimp only at harima
        rw [if_neg hlenM] at harima
        exact absurd harima (by simp)
    | some r =>
        obtain ⟨hist, fc, s⟩ := r
        simp only [Option.map_some']
        exact congrArg some ((C3_forecast_dates_amended (fun _ => some fitConst)
          (fun _ => some esConst) dfMonthly 6 (1, 1, 1)).1 hist fc s harima).1
  · cases harima : arima_sales_forecastW (fun _ => some fitConst) dfWeekly 6 (1, 1, 1) with
    | none =>
        unfold arima_sales_forecastW at harima
        dsimp only at harima
        rw [if_neg hlenW] at harima
        exact absurd harima (by simp)
    | some r =>
        obtain ⟨hist, fc, s⟩ := r
        simp only [Option.map_some']
        exact congrArg some ((C3_forecast_dates_amended (fun _ => some fitConst)
          (fun _ => some esConst) dfWeekly 6 (1, 1, 1)).2.1 hist fc s harima)
  · cases harima : arima_sales_forecastD (fun _ => some fitConst) dfDaily 6 (1, 1, 1) with
    | none =>
        unfold arima_sales_forecastD at harima
        dsimp only at harima
        rw [if_neg hlenD] at harima
        exact absurd harima (by simp)
    | some r =>
        obtain ⟨hist, fc, s⟩ := r
        simp only [Option.map_some']
        exact congrArg some ((C3_forecast_dates_amended (fun _ => some fitConst)
          (fun _ => some esConst) dfDaily 6 (1, 1, 1)).2.2.1 hist fc s harima)
  · cases hes : exponential_smoothing_forecastM (fun _ => some esConst) dfOneMonth 6 with
    | none =>
        unfold exponential_smoothing_forecastM at hes
        dsimp only at hes
        exact absurd hes (by simp)
    | some r =>
        obtain ⟨hist, fc⟩ := r
        simp only [Option.map_some']
        exact congrArg some ((C3_forecast_dates_amended (fun _ => some fitConst)
          (fun _ => some esConst) dfOneMonth 6 (1, 1, 1)).2.2.2.1 hist fc hes).1
  · cases hes : exponential_smoothing_forecastW (fun _ => some esConst) dfWeekly 6 with
    | none =>
        unfold exponential_smoothing_forecastW at hes
        dsimp only at hes
        exact absurd hes (by simp)
    | some r =>
        obtain ⟨hist, fc⟩ := r
        simp only [Option.map_some']
        exact congrArg some ((C3_forecast_dates_amended (fun _ => some fitConst)
          (fun _ => some esConst) dfWeekly 6 (1, 1, 1)).2.2.2.2.1 hneW hist fc hes)
  · cases hes : exponential_smoothing_forecastD (fun _ => some esConst) dfDaily 6 with
    | none =>
        unfold exponential_smoothing_forecastD at hes
        dsimp only at hes
        exact absurd hes (by simp)
    | some r =>
        obtain ⟨hist, fc⟩ := r
        simp only [Option.map_some']
        exact congrArg some ((C3_forecast_dates_amended (fun _ => some fitConst)
          (fun _ => some esConst) dfDaily 6 (1, 1, 1)).2.2.2.2.2 hist fc hes)

/-- Closed witness for C7 at a concrete ten-day daily dataset with an
always-succeeding fit oracle. -/
theorem C7_arima_soft_failure_witness :
    (¬ (seriesD dfDaily).length < 10) ∧
    (∃ fc, arima_sales_forecastD (fun _ => some fitConst) dfDaily 6 (1, 1, 1) =
        some (seriesD dfDaily, fc,
          { aic := fitConst.aic, bic := fitConst.bic, rmse := fitConst.rmse,
            order := (1, 1, 1), observations := (seriesD dfDaily).length }) ∧
      fc.length = 6 ∧
      ∀ i, (h : i < fc.length) →
        fc[i].revenue = fitConst.forecastVals i ∧
        fc[i].lower = fitConst.ciLower i ∧
        fc[i].upper = fitConst.ciUpper i) := by
  have hlenD : ¬ (seriesD dfDaily).length < 10 := by
    rw [seriesD_dfDaily]; simp
  exact ⟨hlenD, (C7_arima_soft_failure (fun _ => some fitConst) dfDaily 6
    (1, 1, 1)).2.2.2.2.2 fitConst rfl hlenD⟩

/-! ### RFM scoring (`compute_rfm` in `src/customer_analysis.py`) -/

/-- `pandas.Series.rank(method='first')` of the element at position `i`
(1-based rank; ties broken by position). -/
def rankFirst (xs : List ℚ) (i : ℕ) : ℕ :=
  xs.countP (fun v => v < xs.getD i 0) +
    (xs.take (i + 1)).countP (fun v => v = xs.getD i 0)

/-- `pandas.Series.quantile(p)` with linear interpolation. -/
def quantileLinear (xs : List ℚ) (p : ℚ) : ℚ :=
  let s := List.insertionSort (· ≤ ·) xs
  let n := s.length
  if n = 0 then 0
  else
    let pos : ℚ := p * (n - 1)
    let i : ℕ := (⌊pos⌋).toNat
    let frac : ℚ := pos - (⌊pos⌋ : ℚ)
    let vi := s.getD i 0
    let vj := s.getD (min (i + 1) (n - 1)) 0
    vi + (vj - vi) * frac

/-- The `pd.qcut(..., 5)` bin edges: the quintile quantiles. -/
def qcutEdges (xs : List ℚ) : List ℚ :=
  [0, 1/5, 2/5, 3/5, 4/5, 1].map (quantileLinear xs)

/-- The bin index assigned by a right-closed `cut` with `include_lowest`:
the number of interior edges strictly below the value. -/
def qcutBin (innerEdges : List ℚ) (v : ℚ) : ℕ :=
  innerEdges.countP (fun e => e < v)

/-- The interior edges of a six-edge quantile list. -/
def innerOf (edges : List ℚ) : List ℚ := (edges.drop 1).dropLast

/-- The fixed `RFM_Score` thresholds of `segment_customer`. -/
def segment_customer (score : ℕ) : String :=
  if 12 ≤ score then "Champions"
  else if 9 ≤ score then "Loyal"
  else if 6 ≤ score then "Potential"
  else "At Risk"

structure RFMRow where
  customer_id : ℕ
  Recency : ℤ
  Frequency : ℕ
  Monetary : ℚ
  R_Score : ℕ
  F_Score : ℕ
  M_Score : ℕ
  RFM_Score : ℕ
  Segment : String
deriving DecidableEq, Repr

/-- The customers of the table (`groupby` keys, ascending). -/
def rfmCustomers (df : List TxRow) : List ℕ :=
  List.insertionSort (· ≤ ·) (df.map (fun r => r.customer_id)).dedup

/-- `Recency`: days between the snapshot and the customer's last purchase. -/
def rfmRecency (df : List TxRow) (snap : ℤ) (c : ℕ) : ℤ :=
  snap - lastPurchase df c

/-- `Frequency`: number of distinct transactions of the customer. -/
def rfmFrequency (df : List TxRow) (c : ℕ) : ℕ :=
  ((df.filter (fun r => r.customer_id = c)).map
    (fun r => r.transaction_id)).dedup.length

/-- `Monetary`: summed `total_amount` of the customer. -/
def rfmMonetary (df : List TxRow) (c : ℕ) : ℚ :=
  ((df.filter (fun r => r.customer_id = c)).map
    (fun r => r.total_amount)).sum

/-- `compute_rfm`: RFM metrics per customer, quintile scores
(`R` reversed via labels `[5,4,3,2,1]`, `F` computed on the rank-transformed
frequency, `M` ascending), the combined score, and the threshold segment.
`pd.qcut(..., duplicates='drop')` with an explicit five-label list raises a
`ValueError` when duplicate quantile edges leave fewer than five bins; this
is the `.error` branch. -/
def compute_rfm (df : List TxRow) (snapshot : Option ℤ) :
    Except String (List RFMRow) :=
  let snap := snapshot.getD (((df.map (fun r => r.transaction_date)).max?).getD 0)
  let customers := rfmCustomers df
  let recs : List ℚ := customers.map (fun c => ((rfmRecency df snap c : ℤ) : ℚ))
  let freqs : List ℚ := customers.map (fun c => ((rfmFrequency df c : ℕ) : ℚ))
  let mons : List ℚ := customers.map (rfmMonetary df)
  let eR := (qcutEdges recs).dedup
  let eF := (qcutEdges ((List.range customers.length).map
    (fun i => ((rankFirst freqs i : ℕ) : ℚ)))).dedup
  let eM := (qcutEdges mons).dedup
  if eR.length = 6 ∧ eF.length = 6 ∧ eM.length = 6 then
    .ok ((List.range customers.length).map (fun i =>
      let c := customers.getD i 0
      let rS := 5 - qcutBin (innerOf eR) ((rfmRecency df snap c : ℤ) : ℚ)
      let fS := 1 + qcutBin (innerOf eF) ((rankFirst freqs i : ℕ) : ℚ)
      let mS := 1 + qcutBin (innerOf eM) (rfmMonetary df c)
      { customer_id := c
        Recency := rfmRecency df snap c
        Frequency := rfmFrequency df c
        Monetary := rfmMonetary df c
        R_Score := rS
        F_Score := fS
        M_Score := mS
        RFM_Score := rS + fS + mS
        Segment := segment_customer (rS + fS + mS) }))
  else
    .error "Bin labels must be one fewer than the number of bin edges"

theorem countP_lt_add_countP_eq (xs : List ℚ) (x : ℚ) :
    xs.countP (fun v => v < x) + xs.countP (fun v => v = x) =
      xs.countP (fun v => v ≤ x) := by
  induction xs with
  | nil => simp
  | cons a as ih =>
      have htt : ((true : Bool) = true) := rfl
      have hft : ¬((false : Bool) = true) := by simp
      rcases lt_trichotomy a x with h | h | h
      · simp only [List.countP_cons]
        rw [show (decide (a < x)) = true by simpa using h,
          show (decide (a = x)) = false by simp [ne_of_lt h],
          show (decide (a ≤ x)) = true by simpa using le_of_lt h,
          if_pos htt, if_neg hft]
        omega
      · simp only [List.countP_cons]
        rw [show (decide (a < x)) = false by simp [h],
          show (decide (a = x)) = true by simpa using h,
          show (decide (a ≤ x)) = true by simpa using le_of_eq h,
          if_pos htt, if_neg hft]
        omega
      · simp only [List.countP_cons]
        rw [show (decide (a < x)) = false by simp [not_lt_of_gt h],
          show (decide (a = x)) = false by simp [ne_of_gt h],
          show (decide (a ≤ x)) = false by simp [not_le_of_gt h],
          if_neg hft]
        omega

theorem rankFirst_strict_mono (xs : List ℚ) (i j : ℕ) (hj : j < xs.length)
    (hlt : xs.getD i 0 < xs.getD j 0) : rankFirst xs i < rankFirst xs j := by
  unfold rankFirst
  have h1 : (xs.take (i + 1)).countP (fun v => v = xs.getD i 0) ≤
      xs.countP (fun v => v = xs.getD i 0) :=
    (List.take_sublist _ _).countP_le _
  have h2 : xs.countP (fun v => v < xs.getD i 0) +
      xs.countP (fun v => v = xs.getD i 0) =
      xs.countP (fun v => v ≤ xs.getD i 0) := countP_lt_add_countP_eq xs _
  have h3 : xs.countP (fun v => v ≤ xs.getD i 0) ≤
      xs.countP (fun v => v < xs.getD j 0) := by
    apply List.countP_mono_left
    intro v _ hv
    simp only [decide_eq_true_eq] at hv ⊢
    exact lt_of_le_of_lt hv hlt
  have h4 : 1 ≤ (xs.take (j + 1)).countP (fun v => v = xs.getD j 0) := by
    rw [Nat.one_le_iff_ne_zero, ← Nat.pos_iff_ne_zero, List.countP_pos_iff]
    refine ⟨xs.getD j 0, ?_, by simp⟩
    have hjt : j < (xs.take (j + 1)).length := by
      rw [List.length_take]
      omega
    have : (xs.take (j + 1)).getD j 0 = xs.getD j 0 := by
      rw [List.getD_eq_getElem _ _ hjt, List.getElem_take,
        List.getD_eq_getElem _ _ hj]
    rw [← this, List.getD_eq_getElem _ _ hjt]
    exact List.getElem_mem _
  omega

theorem qcutBin_mono (inner : List ℚ) (v w : ℚ) (h : v ≤ w) :
    qcutBin inner v ≤ qcutBin inner w := by
  apply List.countP_mono_left
  intro e _ he
  simp only [decide_eq_true_eq] at he ⊢
  exact lt_of_lt_of_le he h

theorem segment_customer_eq (s : ℕ) :
    segment_customer s =
      (if 12 ≤ s then "Champions"
       else if 9 ≤ s then "Loyal"
       else if 6 ≤ s then "Potential"
       else "At Risk") := rfl

theorem getD_map_freq (df : List TxRow) (i : ℕ)
    (hi : i < (rfmCustomers df).length) :
    ((rfmCustomers df).map (fun c => ((rfmFrequency df c : ℕ) : ℚ))).getD i 0 =
      ((rfmFrequency df ((rfmCustomers df).getD i 0) : ℕ) : ℚ) := by
  rw [List.getD_eq_getElem _ _ (by simpa using hi), List.getElem_map,
    List.getD_eq_getElem _ _ hi]

/-- **C6.** On every successful `compute_rfm` run: each row's segment is
determined solely by the fixed thresholds on `RFM_Score` (the sum of the
three component scores), so a score of 12 is always "Champions" and a score
of 5 always "At Risk"; and each component score is monotone in its metric's
favorability — a more recent purchase never lowers `R_Score`, higher
monetary value never lowers `M_Score`, and strictly higher frequency never
lowers `F_Score`. -/
theorem C6_rfm_segments (df : List TxRow) (snapshot : Option ℤ)
    (res : List RFMRow) (hok : compute_rfm df snapshot = .ok res) :
    (∀ row ∈ res,
      row.RFM_Score = row.R_Score + row.F_Score + row.M_Score ∧
      row.Segment =
        (if 12 ≤ row.RFM_Score then "Champions"
         else if 9 ≤ row.RFM_Score then "Loyal"
         else if 6 ≤ row.RFM_Score then "Potential"
         else "At Risk")) ∧
    (∀ a ∈ res, ∀ b ∈ res,
      (a.Recency ≤ b.Recency → b.R_Score ≤ a.R_Score) ∧
      (a.Monetary ≤ b.Monetary → a.M_Score ≤ b.M_Score) ∧
      (a.Frequency < b.Frequency → a.F_Score ≤ b.F_Score)) := by
  unfold compute_rfm at hok
  dsimp only at hok
  split at hok
  · rw [Except.ok.injEq] at hok
    subst hok
    constructor
    · intro row hrow
      rw [List.mem_map] at hrow
      obtain ⟨i, -, rfl⟩ := hrow
      dsimp only
      exact ⟨rfl, segment_customer_eq _⟩
    · intro a ha b hb
      rw [List.mem_map] at ha hb
      obtain ⟨i, hi, rfl⟩ := ha
      obtain ⟨j, hj, rfl⟩ := hb
      rw [List.mem_range] at hi hj
      refine ⟨?_, ?_, ?_⟩
      · intro hrec
        dsimp only at hrec ⊢
        apply Nat.sub_le_sub_left
        apply qcutBin_mono
        exact_mod_cast hrec
      · intro hmon
        dsimp only at hmon ⊢
        apply Nat.add_le_add_left
        exact qcutBin_mono _ _ _ hmon
      · intro hfreq
        dsimp only at hfreq ⊢
        apply Nat.add_le_add_left
        apply qcutBin_mono
        have hrank : rankFirst
            ((rfmCustomers df).map (fun c => ((rfmFrequency df c : ℕ) : ℚ))) i <
            rankFirst
            ((rfmCustomers df).map (fun c => ((rfmFrequency df c : ℕ) : ℚ))) j := by
          apply rankFirst_strict_mono
          · simpa using hj
          · rw [getD_map_freq df i hi, getD_map_freq df j hj]
            exact_mod_cast hfreq
        exact_mod_cast Nat.le_of_lt hrank
  · exact absurd hok (by simp)

/-- A concrete transaction for the RFM witness dataset. -/
def rfmTx (c : ℕ) (t : ℤ) (amt : ℚ) : TxRow :=
  { transaction_id := c, customer_id := c, product_name := "A",
    category := "Books", transaction_date := t, quantity := 1,
    total_amount := amt, profit := 2, discount := 0,
    payment_method := "PayPal", shipping_method := "Standard",
    day_of_week := "Sunday" }

/-- Five customers with one purchase each: recencies 40/30/20/10/0 days,
frequencies all 1 (ranks 1..5), monetary 10..50. -/
def dfRFM : List TxRow :=
  [rfmTx 1 19358 10, rfmTx 2 19368 20, rfmTx 3 19378 30,
   rfmTx 4 19388 40, rfmTx 5 19398 50]

/-- The expected RFM table of `dfRFM`. -/
def rfmRes : List RFMRow :=
  [⟨1, 40, 1, 10, 1, 1, 1, 3, "At Risk"⟩,
   ⟨2, 30, 1, 20, 2, 2, 2, 6, "Potential"⟩,
   ⟨3, 20, 1, 30, 3, 3, 3, 9, "Loyal"⟩,
   ⟨4, 10, 1, 40, 4, 4, 4, 12, "Champions"⟩,
   ⟨5, 0, 1, 50, 5, 5, 5, 15, "Champions"⟩]

/-- Closed witness for C6 at the concrete five-customer dataset. -/
theorem C6_rfm_segments_witness :
    compute_rfm dfRFM none = .ok rfmRes ∧
    (∀ row ∈ rfmRes,
      row.RFM_Score = row.R_Score + row.F_Score + row.M_Score ∧
      row.Segment =
        (if 12 ≤ row.RFM_Score then "Champions"
         else if 9 ≤ row.RFM_Score then "Loyal"
         else if 6 ≤ row.RFM_Score then "Potential"
         else "At Risk")) ∧
    (∀ a ∈ rfmRes, ∀ b ∈ rfmRes,
      (a.Recency ≤ b.Recency → b.R_Score ≤ a.R_Score) ∧
      (a.Monetary ≤ b.Monetary → a.M_Score ≤ b.M_Score) ∧
      (a.Frequency < b.Frequency → a.F_Score ≤ b.F_Score)) := by
  have hsnap : ((dfRFM.map (fun r => r.transaction_date)).max?).getD 0 = 19398 := by
    decide
  have hcust : rfmCustomers dfRFM = [1, 2, 3, 4, 5] := by decide
  have hr1 : rfmRecency dfRFM 19398 1 = 40 := by decide
  have hr2 : rfmRecency dfRFM 19398 2 = 30 := by decide
  have hr3 : rfmRecency dfRFM 19398 3 = 20 := by decide
  have hr4 : rfmRecency dfRFM 19398 4 = 10 := by decide
  have hr5 : rfmRecency dfRFM 19398 5 = 0 := by decide
  have hf1 : rfmFrequency dfRFM 1 = 1 := by decide
  have hf2 : rfmFrequency dfRFM 2 = 1 := by decide
  have hf3 : rfmFrequency dfRFM 3 = 1 := by decide
  have hf4 : rfmFrequency dfRFM 4 = 1 := by decide
  have hf5 : rfmFrequency dfRFM 5 = 1 := by decide
  have hm1 : rfmMonetary dfRFM 1 = 10 := by
    unfold rfmMonetary
    have hfl : dfRFM.filter (fun r => r.customer_id = 1) = [rfmTx 1 19358 10] := by
      decide
    rw [hfl]
    norm_num [rfmTx]
  have hm2 : rfmMonetary dfRFM 2 = 20 := by
    unfold rfmMonetary
    have hfl : dfRFM.filter (fun r => r.customer_id = 2) = [rfmTx 2 19368 20] := by
      decide
    rw [hfl]
    norm_num [rfmTx]
  have hm3 : rfmMonetary dfRFM 3 = 30 := by
    unfold rfmMonetary
    have hfl : dfRFM.filter (fun r => r.customer_id = 3) = [rfmTx 3 19378 30] := by
      decide
    rw [hfl]
    norm_num [rfmTx]
  have hm4 : rfmMonetary dfRFM 4 = 40 := by
    unfold rfmMonetary
    have hfl : dfRFM.filter (fun r => r.customer_id = 4) = [rfmTx 4 19388 40] := by
      decide
    rw [hfl]
    norm_num [rfmTx]
  have hm5 : rfmMonetary dfRFM 5 = 50 := by
    unfold rfmMonetary
    have hfl : dfRFM.filter (fun r => r.customer_id = 5) = [rfmTx 5 19398 50] := by
      decide
    rw [hfl]
    norm_num [rfmTx]
  have hrk0 : rankFirst [1, 1, 1, 1, 1] 0 = 1 := by
    unfold rankFirst
    norm_num [List.countP_cons, List.countP_nil, List.take]
  have hrk1 : rankFirst [1, 1, 1, 1, 1] 1 = 2 := by
    unfold rankFirst
    norm_num [List.countP_cons, List.countP_nil, List.take]
  have hrk2 : rankFirst [1, 1, 1, 1, 1] 2 = 3 := by
    unfold rankFirst
    norm_num [List.countP_cons, List.countP_nil, List.take]
  have hrk3 : rankFirst [1, 1, 1, 1, 1] 3 = 4 := by
    unfold rankFirst
    norm_num [List.countP_cons, List.countP_nil, List.take]
  have hrk4 : rankFirst [1, 1, 1, 1, 1] 4 = 5 := by
    unfold rankFirst
    norm_num [List.countP_cons, List.countP_nil, List.take]
  have hqR0 : quantileLinear [40, 30, 20, 10, 0] (0) = 0 := by
    unfold quantileLinear
    norm_num [List.insertionSort, List.orderedInsert, Int.toNat_ofNat]
    all_goals norm_num [show ((0:ℤ)).toNat = 0 from rfl,
      show ((1:ℤ)).toNat = 1 from rfl, show ((2:ℤ)).toNat = 2 from rfl,
      show ((3:ℤ)).toNat = 3 from rfl, show ((4:ℤ)).toNat = 4 from rfl]
  have hqR1 : quantileLinear [40, 30, 20, 10, 0] (1/5) = 8 := by
    unfold quantileLinear
    norm_num [List.insertionSort, List.orderedInsert, Int.toNat_ofNat]
    all_goals norm_num [show ((0:ℤ)).toNat = 0 from rfl,
      show ((1:ℤ)).toNat = 1 from rfl, show ((2:ℤ)).toNat = 2 from rfl,
      show ((3:ℤ)).toNat = 3 from rfl, show ((4:ℤ)).toNat = 4 from rfl]
  have hqR2 : quantileLinear [40, 30, 20, 10, 0] (2/5) = 16 := by
    unfold quantileLinear
    norm_num [List.insertionSort, List.orderedInsert, Int.toNat_ofNat]
    all_goals norm_num [show ((0:ℤ)).toNat = 0 from rfl,
      show ((1:ℤ)).toNat = 1 from rfl, show ((2:ℤ)).toNat = 2 from rfl,
      show ((3:ℤ)).toNat = 3 from rfl, show ((4:ℤ)).toNat = 4 from rfl]
  have hqR3 : quantileLinear [40, 30, 20, 10, 0] (3/5) = 24 := by
    unfold quantileLinear
    norm_num [List.insertionSort, List.orderedInsert, Int.toNat_ofNat]
    all_goals norm_num [show ((0:ℤ)).toNat = 0 from rfl,
      show ((1:ℤ)).toNat = 1 from rfl, show ((2:ℤ)).toNat = 2 from rfl,
      show ((3:ℤ)).toNat = 3 from rfl, show ((4:ℤ)).toNat = 4 from rfl]
  have hqR4 : quantileLinear [40, 30, 20, 10, 0] (4/5) = 32 := by
    unfold quantileLinear
    norm_num [List.insertionSort, List.orderedInsert, Int.toNat_ofNat]
    all_goals norm_num [show ((0:ℤ)).toNat = 0 from rfl,
      show ((1:ℤ)).toNat = 1 from rfl, show ((2:ℤ)).toNat = 2 from rfl,
      show ((3:ℤ)).toNat = 3 from rfl, show ((4:ℤ)).toNat = 4 from rfl]
  have hqR5 : quantileLinear [40, 30, 20, 10, 0] (1) = 40 := by
    unfold quantileLinear
    norm_num [List.insertionSort, List.orderedInsert, Int.toNat_ofNat]
    all_goals norm_num [show ((0:ℤ)).toNat = 0 from rfl,
      show ((1:ℤ)).toNat = 1 from rfl, show ((2:ℤ)).toNat = 2 from rfl,
      show ((3:ℤ)).toNat = 3 from rfl, show ((4:ℤ)).toNat = 4 from rfl]
  have hqF0 : quantileLinear [1, 2, 3, 4, 5] (0) = 1 := by
    unfold quantileLinear
    norm_num [List.insertionSort, List.orderedInsert, Int.toNat_ofNat]
    all_goals norm_num [show ((0:ℤ)).toNat = 0 from rfl,
      show ((1:ℤ)).toNat = 1 from rfl, show ((2:ℤ)).toNat = 2 from rfl,
      show ((3:ℤ)).toNat = 3 from rfl, show ((4:ℤ)).toNat = 4 from rfl]
  have hqF1 : quantileLinear [1, 2, 3, 4, 5] (1/5) = 9/5 := by
    unfold quantileLinear
    norm_num [List.insertionSort, List.orderedInsert, Int.toNat_ofNat]
    all_goals norm_num [show ((0:ℤ)).toNat = 0 from rfl,
      show ((1:ℤ)).toNat = 1 from rfl, show ((2:ℤ)).toNat = 2 from rfl,
      show ((3:ℤ)).toNat = 3 from rfl, show ((4:ℤ)).toNat = 4 from rfl]
  have hqF2 : quantileLinear [1, 2, 3, 4, 5] (2/5) = 13/5 := by
    unfold quantileLinear
    norm_num [List.insertionSort, List.orderedInsert, Int.toNat_ofNat]
    all_goals norm_num [show ((0:ℤ)).toNat = 0 from rfl,
      show ((1:ℤ)).toNat = 1 from rfl, show ((2:ℤ)).toNat = 2 from rfl,
      show ((3:ℤ)).toNat = 3 from rfl, show ((4:ℤ)).toNat = 4 from rfl]
  have hqF3 : quantileLinear [1, 2, 3, 4, 5] (3/5) = 17/5 := by
    unfold quantileLinear
    norm_num [List.insertionSort, List.orderedInsert, Int.toNat_ofNat]
    all_goals norm_num [show ((0:ℤ)).toNat = 0 from rfl,
      show ((1:ℤ)).toNat = 1 from rfl, show ((2:ℤ)).toNat = 2 from rfl,
      show ((3:ℤ)).toNat = 3 from rfl, show ((4:ℤ)).toNat = 4 from rfl]
  have hqF4 : quantileLinear [1, 2, 3, 4, 5] (4/5) = 21/5 := by
    unfold quantileLinear
    norm_num [List.insertionSort, List.orderedInsert, Int.toNat_ofNat]
    all_goals norm_num [show ((0:ℤ)).toNat = 0 from rfl,
      show ((1:ℤ)).toNat = 1 from rfl, show ((2:ℤ)).toNat = 2 from rfl,
      show ((3:ℤ)).toNat = 3 from rfl, show ((4:ℤ)).toNat = 4 from rfl]
  have hqF5 : quantileLinear [1, 2, 3, 4, 5] (1) = 5 := by
    unfold quantileLinear
    norm_num [List.insertionSort, List.orderedInsert, Int.toNat_ofNat]
    all_goals norm_num [show ((0:ℤ)).toNat = 0 from rfl,
      show ((1:ℤ)).toNat = 1 from rfl, show ((2:ℤ)).toNat = 2 from rfl,
      show ((3:ℤ)).toNat = 3 from rfl, show ((4:ℤ)).toNat = 4 from rfl]
  have hqM0 : quantileLinear [10, 20, 30, 40, 50] (0) = 10 := by
    unfold quantileLinear
    norm_num [List.insertionSort, List.orderedInsert, Int.toNat_ofNat]
    all_goals norm_num [show ((0:ℤ)).toNat = 0 from rfl,
      show ((1:ℤ)).toNat = 1 from rfl, show ((2:ℤ)).toNat = 2 from rfl,
      show ((3:ℤ)).toNat = 3 from rfl, show ((4:ℤ)).toNat = 4 from rfl]
  have hqM1 : quantileLinear [10, 20, 30, 40, 50] (1/5) = 18 := by
    unfold quantileLinear
    norm_num [List.insertionSort, List.orderedInsert, Int.toNat_ofNat]
    all_goals norm_num [show ((0:ℤ)).toNat = 0 from rfl,
      show ((1:ℤ)).toNat = 1 from rfl, show ((2:ℤ)).toNat = 2 from rfl,
      show ((3:ℤ)).toNat = 3 from rfl, show ((4:ℤ)).toNat = 4 from rfl]
  have hqM2 : quantileLinear [10, 20, 30, 40, 50] (2/5) = 26 := by
    unfold quantileLinear
    norm_num [List.insertionSort, List.orderedInsert, Int.toNat_ofNat]
    all_goals norm_num [show ((0:ℤ)).toNat = 0 from rfl,
      show ((1:ℤ)).toNat = 1 from rfl, show ((2:ℤ)).toNat = 2 from rfl,
      show ((3:ℤ)).toNat = 3 from rfl, show ((4:ℤ)).toNat = 4 from rfl]
  have hqM3 : quantileLinear [10, 20, 30, 40, 50] (3/5) = 34 := by
    unfold quantileLinear
    norm_num [List.insertionSort, List.orderedInsert, Int.toNat_ofNat]
    all_goals norm_num [show ((0:ℤ)).toNat = 0 from rfl,
      show ((1:ℤ)).toNat = 1 from rfl, show ((2:ℤ)).toNat = 2 from rfl,
      show ((3:ℤ)).toNat = 3 from rfl, show ((4:ℤ)).toNat = 4 from rfl]
  have hqM4 : quantileLinear [10, 20, 30, 40, 50] (4/5) = 42 := by
    unfold quantileLinear
    norm_num [List.insertionSort, List.orderedInsert, Int.toNat_ofNat]
    all_goals norm_num [show ((0:ℤ)).toNat = 0 from rfl,
      show ((1:ℤ)).toNat = 1 from rfl, show ((2:ℤ)).toNat = 2 from rfl,
      show ((3:ℤ)).toNat = 3 from rfl, show ((4:ℤ)).toNat = 4 from rfl]
  have hqM5 : quantileLinear [10, 20, 30, 40, 50] (1) = 50 := by
    unfold quantileLinear
    norm_num [List.insertionSort, List.orderedInsert, Int.toNat_ofNat]
    all_goals norm_num [show ((0:ℤ)).toNat = 0 from rfl,
      show ((1:ℤ)).toNat = 1 from rfl, show ((2:ℤ)).toNat = 2 from rfl,
      show ((3:ℤ)).toNat = 3 from rfl, show ((4:ℤ)).toNat = 4 from rfl]
  have heR : (qcutEdges [40, 30, 20, 10, 0]).dedup = [0, 8, 16, 24, 32, 40] := by
    unfold qcutEdges
    simp only [List.map_cons, List.map_nil, hqR0, hqR1, hqR2, hqR3, hqR4, hqR5]
    norm_num [List.dedup, List.pwFilter]
  have heF : (qcutEdges [1, 2, 3, 4, 5]).dedup = [1, 9/5, 13/5, 17/5, 21/5, 5] := by
    unfold qcutEdges
    simp only [List.map_cons, List.map_nil, hqF0, hqF1, hqF2, hqF3, hqF4, hqF5]
    norm_num [List.dedup, List.pwFilter]
  have heM : (qcutEdges [10, 20, 30, 40, 50]).dedup = [10, 18, 26, 34, 42, 50] := by
    unfold qcutEdges
    simp only [List.map_cons, List.map_nil, hqM0, hqM1, hqM2, hqM3, hqM4, hqM5]
    norm_num [List.dedup, List.pwFilter]
  have hok : compute_rfm dfRFM none = .ok rfmRes := by
    unfold compute_rfm
    dsimp only
    simp only [Option.getD_none]
    rw [hsnap, hcust]
    simp only [List.map_cons, List.map_nil, List.length_cons, List.length_nil,
      hr1, hr2, hr3, hr4, hr5, hf1, hf2, hf3, hf4, hf5, hm1, hm2, hm3, hm4, hm5]
    push_cast
    rw [show List.range (0 + 1 + 1 + 1 + 1 + 1) = [0, 1, 2, 3, 4] from by decide]
    simp only [List.map_cons, List.map_nil, hrk0, hrk1, hrk2, hrk3, hrk4]
    push_cast
    rw [heR, heF, heM]
    rw [if_pos (by refine ⟨by decide, by decide, by decide⟩)]
    simp only [List.map_cons, List.map_nil, List.getD_cons_zero,
      List.getD_cons_succ, hr1, hr2, hr3, hr4, hr5, hf1, hf2, hf3, hf4, hf5,
      hm1, hm2, hm3, hm4, hm5, hrk0, hrk1, hrk2, hrk3, hrk4]
    norm_num [qcutBin, innerOf, segment_customer, rfmRes,
      List.countP_cons, List.countP_nil]
    all_goals decide
  exact ⟨hok, (C6_rfm_segments dfRFM none rfmRes hok).1,
    (C6_rfm_segments dfRFM none rfmRes hok).2⟩
